import Mathlib

/-!
Verification development for the cesiumjs_anywidget interactive
synchronization and measurement engine.

The JavaScript sources are shallowly embedded:

* JS numbers that may be `NaN`, `Infinity` or `undefined` are modelled by
  the inductive type `JSVal`; ordinary finite numbers are modelled by `ℚ`
  (the development states no claim about binary floating point rounding).
* Calls into the external Cesium rendering engine
  (`Cesium.Cartesian3.distance`, `Cesium.Cartographic.fromCartesian`,
  `Cesium.Math.toDegrees`, `globe.getHeight`,
  `Cesium.PolygonGeometry.createGeometry`, ...) are modelled through the
  parameter structure `Geo`: the engine is an external collaborator, and
  every theorem below is proved for an arbitrary instantiation of these
  primitives unless it is a concrete counterexample.
* Stateful modules become explicit state passing: `CamState` for
  `camera-sync.js`, `MState` for the measurement session of
  `measurement-tools.js`, and `HState` for the picking-handler slots.
* Side effects on the engine are reified as effect values
  (`CamEffect`); an update "reaches the render engine" exactly when the
  corresponding effect is emitted.
-/

/-- Model of a JavaScript number-ish value as read from the host model:
a finite number, `NaN`, `+Infinity`, `-Infinity`, or `undefined`. -/
inductive JSVal where
  | num (q : ℚ)
  | nan
  | inf
  | ninf
  | undef
deriving DecidableEq, Repr

namespace JSVal

/-- `typeof v === 'number'` (true for `NaN` and the infinities). -/
def isNumber : JSVal → Bool
  | num _ => true
  | nan => true
  | inf => true
  | ninf => true
  | undef => false

/-- JavaScript `isNaN(v)` for the values representable here
(`isNaN(undefined)` is `true` since `Number(undefined)` is `NaN`). -/
def isNaNv : JSVal → Bool
  | nan => true
  | undef => true
  | _ => false

/-- JavaScript `v < c` for a finite literal bound `c`
(comparisons involving `NaN`/`undefined` are `false`). -/
def ltc : JSVal → ℚ → Bool
  | num q, c => q < c
  | nan, _ => false
  | inf, _ => false
  | ninf, _ => true
  | undef, _ => false

/-- JavaScript `v > c` for a finite literal bound `c`. -/
def gtc : JSVal → ℚ → Bool
  | num q, c => q > c
  | nan, _ => false
  | inf, _ => true
  | ninf, _ => false
  | undef, _ => false

/-- JavaScript truthiness of the value (`0`, `NaN` and `undefined` are
falsy; the infinities and every other number are truthy). -/
def truthy : JSVal → Bool
  | num q => q ≠ 0
  | nan => false
  | inf => true
  | ninf => true
  | undef => false

/-- JavaScript `a || b`: `b` when `a` is falsy, otherwise `a`. -/
def orElse (a b : JSVal) : JSVal :=
  if a.truthy then a else b

end JSVal

/-!
## camera-sync.js
-/

/-- `validateCameraParameters(lat, lon, alt)` from `camera-sync.js`
lines 41-55, translated clause for clause:
each field must be a number and not `NaN`; latitude must additionally not
be `< -90` nor `> 90`.  There is no `isFinite` check. -/
def validateCameraParameters (lat lon alt : JSVal) : Bool :=
  if !lat.isNumber || lat.isNaNv || lat.ltc (-90) || lat.gtc 90 then false
  else if !lon.isNumber || lon.isNaNv then false
  else if !alt.isNumber || alt.isNaNv then false
  else true

/-- `validateOrientationAngles(heading, pitch, roll)` from
`camera-sync.js` lines 57-71: each field must be a number and not `NaN`. -/
def validateOrientationAngles (heading pitch roll : JSVal) : Bool :=
  if !heading.isNumber || heading.isNaNv then false
  else if !pitch.isNumber || pitch.isNaNv then false
  else if !roll.isNumber || roll.isNaNv then false
  else true

/-- State of the camera synchronization module: the destroyed flag, the
mirrored `camera_sync_enabled` toggle, the six camera pose traits as read
from the host model, and the two debounce slots (a pending timeout is
modelled as a boolean). -/
structure CamState where
  destroyed : Bool
  syncEnabled : Bool
  latitude : JSVal
  longitude : JSVal
  altitude : JSVal
  heading : JSVal
  pitch : JSVal
  roll : JSVal
  pendingOutbound : Bool
  pendingInbound : Bool
deriving DecidableEq, Repr

/-- A call into the rendering engine's camera handle issued by
`camera-sync.js`.  Values are recorded exactly as passed by the
JavaScript code, before the external `Cesium.Cartesian3.fromDegrees` /
`Cesium.Math.toRadians` conversions (those conversions live in the
engine collaborator, and the arguments here are the degree-valued inputs
the module hands to them). -/
inductive CamEffect where
  | setViewDeg (lon lat alt heading pitch roll : JSVal)
  | flyToDeg (lon lat alt heading pitch roll duration : JSVal)
  | lookAtDeg (lon lat alt offsetHeading offsetPitch offsetRange : JSVal)
  | lookAtTransformReset
  | moveForward (d : JSVal)
  | moveBackward (d : JSVal)
  | moveUp (d : JSVal)
  | moveDown (d : JSVal)
  | moveLeft (d : JSVal)
  | moveRight (d : JSVal)
  | rotateLeftDeg (a : JSVal)
  | rotateRightDeg (a : JSVal)
  | rotateUpDeg (a : JSVal)
  | rotateDownDeg (a : JSVal)
  | zoomIn (d : JSVal)
  | zoomOut (d : JSVal)
deriving DecidableEq, Repr

/-- `updateCameraFromModelImmediate()` from `camera-sync.js` lines
73-112: a no-op when the module is destroyed; otherwise the six pose
traits are read from the model and validated, and only on success is
`viewer.camera.setView` called.  The function returns the engine call it
performs, or `none` when the update is dropped. -/
def updateCameraFromModelImmediate (s : CamState) : Option CamEffect :=
  if s.destroyed then none
  else if !validateCameraParameters s.latitude s.longitude s.altitude then none
  else if !validateOrientationAngles s.heading s.pitch s.roll then none
  else some (CamEffect.setViewDeg s.longitude s.latitude s.altitude
    s.heading s.pitch s.roll)

/-- The trailing part of `updateCameraFromModel()` (lines 114-124): the
50 ms debounce timeout body, `if (!isDestroyed) updateCameraFromModelImmediate()`. -/
def inboundTimeoutFire (s : CamState) : Option CamEffect :=
  if !s.destroyed then updateCameraFromModelImmediate s else none

/-- A write of the camera pose into the host model performed by
`updateModelFromCamera()`; the six values are the engine camera readings
being mirrored back. -/
structure HostPoseWrite where
  lat : ℚ
  lon : ℚ
  alt : ℚ
  heading : ℚ
  pitch : ℚ
  roll : ℚ
deriving DecidableEq, Repr

/-- `updateModelFromCamera()` from `camera-sync.js` lines 126-158: a
no-op when destroyed or when outbound sync is disabled; otherwise the
current engine camera pose `cam` is written to the host model. -/
def updateModelFromCamera (cam : HostPoseWrite) (s : CamState) :
    Option HostPoseWrite :=
  if s.destroyed then none
  else if !s.syncEnabled then none
  else some cam

/-- `handleCameraChanged()` from `camera-sync.js` lines 160-176: a no-op
when destroyed or when sync is disabled; otherwise it (re)arms the 500 ms
trailing debounce timeout. -/
def handleCameraChanged (s : CamState) : CamState :=
  if s.destroyed then s
  else if !s.syncEnabled then s
  else { s with pendingOutbound := true }

/-- The 500 ms timeout body armed by `handleCameraChanged` (lines
171-175): `if (!isDestroyed && syncEnabled) updateModelFromCamera()`. -/
def outboundTimeoutFire (cam : HostPoseWrite) (s : CamState) :
    Option HostPoseWrite :=
  if !s.destroyed && s.syncEnabled then updateModelFromCamera cam s else none

/-- The command tag strings dispatched by `handleCameraCommand`
(`camera-sync.js` lines 193-348); `unknown` stands for any other tag,
which hits the logged-and-ignored `default` branch. -/
inductive CmdTag where
  | flyTo
  | setView
  | lookAt
  | moveForward
  | moveBackward
  | moveUp
  | moveDown
  | moveLeft
  | moveRight
  | rotateLeft
  | rotateRight
  | rotateUp
  | rotateDown
  | zoomIn
  | zoomOut
  | unknown
deriving DecidableEq, Repr

/-- The `camera_command` payload: a duck-typed record whose fields are
JS values; absent fields are `undef`.  `tag` models `command.command`
(`none` when the field is missing/empty). -/
structure CameraCommand where
  tag : Option CmdTag
  timestamp : JSVal
  latitude : JSVal
  longitude : JSVal
  altitude : JSVal
  heading : JSVal
  pitch : JSVal
  roll : JSVal
  duration : JSVal
  targetLatitude : JSVal
  targetLongitude : JSVal
  targetAltitude : JSVal
  offsetHeading : JSVal
  offsetPitch : JSVal
  offsetRange : JSVal
  distance : JSVal
  angle : JSVal
deriving DecidableEq, Repr

/-- A camera command whose only set fields are the tag, a timestamp, and
optionally `distance`/`angle` — the shape relative commands use. -/
def mkRelCommand (t : CmdTag) (d a : JSVal) : CameraCommand :=
  ⟨some t, JSVal.num 1, JSVal.undef, JSVal.undef, JSVal.undef, JSVal.undef,
    JSVal.undef, JSVal.undef, JSVal.undef, JSVal.undef, JSVal.undef,
    JSVal.undef, JSVal.undef, JSVal.undef, JSVal.undef, d, a⟩

/-- `handleCameraCommand` from `camera-sync.js` lines 193-348, as the
list of engine calls it performs.  A destroyed module, a missing command,
a falsy `command.command`, or a falsy `command.timestamp` produce no
calls; `flyTo`/`setView`/`lookAt` validate their positional parameters
first; the twelve relative commands default a falsy magnitude with
`command.distance || 100` respectively `command.angle || 15`; unknown
tags are ignored.  (The secondary frustum parameters of `setView` mutate
the engine's projection object and are outside this embedding.) -/
def handleCameraCommand (s : CamState) (c : Option CameraCommand) :
    List CamEffect :=
  if s.destroyed then []
  else
    match c with
    | none => []
    | some cmd =>
      match cmd.tag with
      | none => []
      | some t =>
        if !cmd.timestamp.truthy then []
        else
          match t with
          | CmdTag.flyTo =>
            if !validateCameraParameters cmd.latitude cmd.longitude cmd.altitude
            then []
            else [CamEffect.flyToDeg cmd.longitude cmd.latitude cmd.altitude
              (cmd.heading.orElse (JSVal.num 0))
              (cmd.pitch.orElse (JSVal.num (-15)))
              (cmd.roll.orElse (JSVal.num 0))
              (cmd.duration.orElse (JSVal.num 3))]
          | CmdTag.setView =>
            if !validateCameraParameters cmd.latitude cmd.longitude cmd.altitude
            then []
            else [CamEffect.setViewDeg cmd.longitude cmd.latitude cmd.altitude
              (cmd.heading.orElse (JSVal.num 0))
              (cmd.pitch.orElse (JSVal.num (-15)))
              (cmd.roll.orElse (JSVal.num 0))]
          | CmdTag.lookAt =>
            if !validateCameraParameters cmd.targetLatitude cmd.targetLongitude
              (cmd.targetAltitude.orElse (JSVal.num 0))
            then []
            else [CamEffect.lookAtDeg cmd.targetLongitude cmd.targetLatitude
              (cmd.targetAltitude.orElse (JSVal.num 0))
              (cmd.offsetHeading.orElse (JSVal.num 0))
              (cmd.offsetPitch.orElse (JSVal.num (-45)))
              (cmd.offsetRange.orElse (JSVal.num 1000)),
              CamEffect.lookAtTransformReset]
          | CmdTag.moveForward =>
            [CamEffect.moveForward (cmd.distance.orElse (JSVal.num 100))]
          | CmdTag.moveBackward =>
            [CamEffect.moveBackward (cmd.distance.orElse (JSVal.num 100))]
          | CmdTag.moveUp =>
            [CamEffect.moveUp (cmd.distance.orElse (JSVal.num 100))]
          | CmdTag.moveDown =>
            [CamEffect.moveDown (cmd.distance.orElse (JSVal.num 100))]
          | CmdTag.moveLeft =>
            [CamEffect.moveLeft (cmd.distance.orElse (JSVal.num 100))]
          | CmdTag.moveRight =>
            [CamEffect.moveRight (cmd.distance.orElse (JSVal.num 100))]
          | CmdTag.rotateLeft =>
            [CamEffect.rotateLeftDeg (cmd.angle.orElse (JSVal.num 15))]
          | CmdTag.rotateRight =>
            [CamEffect.rotateRightDeg (cmd.angle.orElse (JSVal.num 15))]
          | CmdTag.rotateUp =>
            [CamEffect.rotateUpDeg (cmd.angle.orElse (JSVal.num 15))]
          | CmdTag.rotateDown =>
            [CamEffect.rotateDownDeg (cmd.angle.orElse (JSVal.num 15))]
          | CmdTag.zoomIn =>
            [CamEffect.zoomIn (cmd.distance.orElse (JSVal.num 100))]
          | CmdTag.zoomOut =>
            [CamEffect.zoomOut (cmd.distance.orElse (JSVal.num 100))]
          | CmdTag.unknown => []

/-!
## measurement-tools.js: data model

Line numbers refer to the authoritative module of
`src/cesiumjs_anywidget/js/measurement-tools.js` (the version containing
`updateOrCreateMeasurement`, `formatValue` and the edit controller).
-/

/-- A Cesium `Cartesian3` world-frame position. -/
structure Cart3 where
  x : ℚ
  y : ℚ
  z : ℚ
deriving DecidableEq, Repr

/-- A Cesium `Cartographic` (latitude and longitude in radians plus
ellipsoidal height), as produced by `Cesium.Cartographic.fromCartesian`. -/
structure Carto where
  latitude : ℚ
  longitude : ℚ
  height : ℚ
deriving DecidableEq, Repr

/-- A registry point record `{lat, lon, alt}` in degrees, as produced by
`cartesianToLatLonAlt`. -/
structure LLA where
  lat : ℚ
  lon : ℚ
  alt : ℚ
deriving DecidableEq, Repr

/-- The external Cesium primitives the measurement module calls.  The
rendering engine is an out-of-scope collaborator, so these are
parameters of the embedding:

* `sqrtFn` — the square root used inside `Cesium.Cartesian3.distance`
  and `Cesium.Cartesian3.magnitude`;
* `fromCartesian` — `Cesium.Cartographic.fromCartesian`;
* `toDegrees` — `Cesium.Math.toDegrees`;
* `fromRadians` — `Cesium.Cartesian3.fromRadians(longitude, latitude, height)`;
* `getHeight` — `viewer.scene.globe.getHeight` (may return `undefined`,
  modelled as `none`);
* `triangulate` — the triangulated mesh produced by
  `Cesium.PolygonGeometry.createGeometry` with geodesic arcs (`none`
  when `createGeometry` returns nothing). -/
structure Geo where
  sqrtFn : ℚ → ℚ
  fromCartesian : Cart3 → Carto
  toDegrees : ℚ → ℚ
  fromRadians : ℚ → ℚ → ℚ → Cart3
  getHeight : Carto → Option ℚ
  triangulate : List Cart3 → Option (List (Cart3 × Cart3 × Cart3))

/-- Squared Euclidean norm of the difference of two positions. -/
def distSq (p q : Cart3) : ℚ :=
  (p.x - q.x) ^ 2 + (p.y - q.y) ^ 2 + (p.z - q.z) ^ 2

/-- `Cesium.Cartesian3.distance(p, q)`: the Euclidean (chord) distance
in the engine's world frame, i.e. the square root of the sum of squared
coordinate differences. -/
def cesDistance (G : Geo) (p q : Cart3) : ℚ :=
  G.sqrtFn (distSq p q)

/-- `calculateDistance(point1, point2)` (line 1316): delegates to
`Cesium.Cartesian3.distance`. -/
def calculateDistance (G : Geo) (p q : Cart3) : ℚ :=
  cesDistance G p q

/-- `Cesium.Cartesian3.subtract`. -/
def cesSub (a b : Cart3) : Cart3 :=
  ⟨a.x - b.x, a.y - b.y, a.z - b.z⟩

/-- `Cesium.Cartesian3.cross`. -/
def cesCross (a b : Cart3) : Cart3 :=
  ⟨a.y * b.z - a.z * b.y, a.z * b.x - a.x * b.z, a.x * b.y - a.y * b.x⟩

/-- `Cesium.Cartesian3.magnitude`. -/
def cesMagnitude (G : Geo) (v : Cart3) : ℚ :=
  G.sqrtFn (v.x ^ 2 + v.y ^ 2 + v.z ^ 2)

/-- `calculateGeodesicArea(positions)` (lines 774-807): triangulate the
geodesic polygon through the external `Cesium.PolygonGeometry`, then for
each triangle `(v0, v1, v2)` of the mesh accumulate half the magnitude
of the cross product of its edge vectors; `0` when no geometry is
produced. -/
def calculateGeodesicArea (G : Geo) (positions : List Cart3) : ℚ :=
  match G.triangulate positions with
  | none => 0
  | some tris =>
    tris.foldl
      (fun area t =>
        area + cesMagnitude G (cesCross (cesSub t.2.1 t.1) (cesSub t.2.2 t.1)) / 2)
      0

/-- `cartesianToLatLonAlt(cartesian)` (lines 1324-1331): convert through
`Cesium.Cartographic.fromCartesian` and `Cesium.Math.toDegrees`. -/
def cartesianToLatLonAlt (G : Geo) (p : Cart3) : LLA :=
  let c := G.fromCartesian p
  ⟨G.toDegrees c.latitude, G.toDegrees c.longitude, c.height⟩

/-- The running-total loop shared verbatim by `handleMultiDistanceClick`
(lines 2207-2210), `finalizeMeasurementUpdate` (lines 1739-1742) and
`addPointToMeasurement` (lines 1907-1910):
`for (i = 0; i < points.length - 1; i++) total += distance(points[i], points[i+1])`. -/
def sumConsecutive (G : Geo) : List Cart3 → ℚ
  | [] => 0
  | [_] => 0
  | p :: q :: rest => calculateDistance G p q + sumConsecutive G (q :: rest)

/-- The unit a value is rendered with. -/
inductive MUnit where
  | m
  | km
  | m2
  | km2
deriving DecidableEq, Repr

/-- A rendered value: the scaled amount handed to `toFixed`, the unit
suffix, and the number of decimals requested from `toFixed`. -/
structure Formatted where
  amount : ℚ
  unit : MUnit
  decimals : ℕ
deriving DecidableEq, Repr

/-- `formatValue(value, isArea)` (lines 826-835): areas of at least
1,000,000 m² are scaled to km², distances of at least 1,000 m are scaled
to km, everything else stays in base units; `toFixed(2)` in all cases. -/
def formatValue (value : ℚ) (isArea : Bool := false) : Formatted :=
  if isArea then
    if value ≥ 1000000 then ⟨value / 1000000, MUnit.km2, 2⟩
    else ⟨value, MUnit.m2, 2⟩
  else
    if value ≥ 1000 then ⟨value / 1000, MUnit.km, 2⟩
    else ⟨value, MUnit.m, 2⟩

/-- Measurement types stored in the registry. -/
inductive MType where
  | distance
  | multiDistance
  | height
  | area
deriving DecidableEq, Repr

/-- `TYPE_LABELS` (lines 764-769). -/
def typeLabel : MType → String
  | MType.distance => "Distance"
  | MType.multiDistance => "Multi-Distance"
  | MType.height => "Height"
  | MType.area => "Area"

/-- A registry entry of `measurement_results`.  JavaScript objects
without an `isActive` field behave exactly like `isActive: false` under
the truthiness tests the module performs, so absence is modelled as
`false`. -/
structure Meas where
  type : MType
  value : ℚ
  points : List LLA
  isActive : Bool
  name : String
deriving DecidableEq, Repr

/-- Number of registry entries of the given type,
`results.filter(r => r.type === type).length`. -/
def countType (results : List Meas) (t : MType) : ℕ :=
  (results.filter (fun r => r.type == t)).length

/-- `updateOrCreateMeasurement(type, value, points)` (lines 1333-1354):
if the last registry entry has the same type and is active it is
replaced in place (spread keeps its name and `isActive`); otherwise a
new entry is appended, active exactly for multi-distance/area, named
`"{TypeLabel} {count}"`. -/
def updateOrCreateMeasurement (t : MType) (value : ℚ) (points : List LLA)
    (results : List Meas) : List Meas :=
  match results.getLast? with
  | some lastResult =>
    if lastResult.type == t && lastResult.isActive then
      results.dropLast ++ [{ lastResult with value := value, points := points }]
    else
      results ++ [⟨t, value, points,
        t == MType.multiDistance || t == MType.area,
        typeLabel t ++ " " ++ toString (countType results t + 1)⟩]
  | none =>
    results ++ [⟨t, value, points,
      t == MType.multiDistance || t == MType.area,
      typeLabel t ++ " " ++ toString (countType results t + 1)⟩]

/-- The measurement mode (`measurement_mode` trait); `off` models the
empty string / null mode. -/
inductive Mode where
  | off
  | distance
  | multiDistance
  | height
  | area
deriving DecidableEq, Repr

/-- State of the measurement session: the current mode, the in-progress
point list (`measurementState.points`), the marker entities
(`measurementState.entities`, by position), the labels (by rendered
text), the continuations scheduled by `sampleTerrainMostDetailed(...)
.then(...)` that have not resolved yet, the mirrored registry, and the
teardown flag. -/
structure MState where
  mode : Mode
  points : List Cart3
  markers : List Cart3
  labels : List Formatted
  pending : List Formatted
  registry : List Meas
  destroyed : Bool
deriving DecidableEq, Repr

/-- `addMarker` (lines 1281-1294), restricted to the state it keeps. -/
def addMarkerM (p : Cart3) (s : MState) : MState :=
  { s with markers := s.markers ++ [p] }

/-- `addLabel` (lines 1296-1314), restricted to the state it keeps. -/
def addLabelM (t : Formatted) (s : MState) : MState :=
  { s with labels := s.labels ++ [t] }

/-- `handleDistanceClick(click)` (lines 2127-2182).  `pick` is the
result of `getPosition`; a failed pick (`none`) is a no-op.  On the
first point only a marker and the temporary polyline appear; on the
second point the chord distance is computed, a label `formatValue(d)` is
placed at the midpoint, exactly one registry entry is appended (no
`isActive` field; name `"Distance {n}"`), and the session point list is
reset. -/
def handleDistanceClick (G : Geo) (pick : Option Cart3) (s : MState) : MState :=
  match pick with
  | none => s
  | some position =>
    if s.points.length == 0 then
      addMarkerM position { s with points := s.points ++ [position] }
    else if s.points.length == 1 then
      let pts := s.points ++ [position]
      let distance := calculateDistance G (pts.getD 0 position) (pts.getD 1 position)
      let s1 := addMarkerM position { s with points := pts }
      let s2 := addLabelM (formatValue distance) s1
      { s2 with
        registry := s2.registry ++ [⟨MType.distance, distance,
          pts.map (cartesianToLatLonAlt G), false,
          "Distance " ++ toString (countType s2.registry MType.distance + 1)⟩],
        points := [] }
    else s

/-- `handleMultiDistanceClick(click)` (lines 2184-2214): push the picked
point and a marker; from the second point on, label the new segment and
write the running total through `updateOrCreateMeasurement`. -/
def handleMultiDistanceClick (G : Geo) (pick : Option Cart3) (s : MState) :
    MState :=
  match pick with
  | none => s
  | some position =>
    let pts := s.points ++ [position]
    let s1 := addMarkerM position { s with points := pts }
    if pts.length == 1 then s1
    else
      let p1 := pts.getD (pts.length - 2) position
      let p2 := pts.getD (pts.length - 1) position
      let s2 := addLabelM (formatValue (calculateDistance G p1 p2)) s1
      let totalDistance := sumConsecutive G pts
      { s2 with
        registry := updateOrCreateMeasurement MType.multiDistance totalDistance
          (pts.map (cartesianToLatLonAlt G)) s2.registry }

/-- `handleHeightClick(click)` (lines 2216-2256): the picked point is
converted to cartographic coordinates, the terrain height is
`globe.getHeight(cartographic) || 0`, and the measurement value is the
**signed** difference `pickedHeight - terrainHeight` (there is no
`Math.abs` on this path).  Two markers, the vertical line and a label
`"{height.toFixed(2)} m"` (raw base units, not `formatValue`) are
added, and exactly one registry entry is appended; the session point
list is untouched, so the measurement finalizes immediately. -/
def handleHeightClick (G : Geo) (pick : Option Cart3) (s : MState) : MState :=
  match pick with
  | none => s
  | some pickedPosition =>
    let cartographic := G.fromCartesian pickedPosition
    let terrainHeight := (G.getHeight cartographic).getD 0
    let pickedHeight := cartographic.height
    let height := pickedHeight - terrainHeight
    let groundPosition := G.fromRadians cartographic.longitude
      cartographic.latitude terrainHeight
    let s1 := addMarkerM pickedPosition (addMarkerM groundPosition s)
    let s2 := addLabelM ⟨height, MUnit.m, 2⟩ s1
    { s2 with
      registry := s2.registry ++ [⟨MType.height, height,
        [cartesianToLatLonAlt G groundPosition,
          cartesianToLatLonAlt G pickedPosition], false,
        "Height " ++ toString (countType s2.registry MType.height + 1)⟩] }

/-- Does a label display square units?  (The `find` predicate of lines
2285-2289: label text containing `m²` or `km²`.) -/
def isAreaLabel (t : Formatted) : Bool :=
  t.unit == MUnit.m2 || t.unit == MUnit.km2

/-- Remove the first element satisfying the predicate (the semantics of
`labels.find` followed by removal and `filter`). -/
def removeFirst (p : Formatted → Bool) : List Formatted → List Formatted
  | [] => []
  | t :: rest => if p t then rest else t :: removeFirst p rest

/-- `handleAreaClick(click)` (lines 2258-2299): push the picked point
and a marker; once at least three points exist, compute the geodesic
area, drop the previous area label, **schedule** the new label behind
`Cesium.sampleTerrainMostDetailed(...).then(...)` (the label is not
added synchronously), and write the registry through
`updateOrCreateMeasurement`. -/
def handleAreaClick (G : Geo) (pick : Option Cart3) (s : MState) : MState :=
  match pick with
  | none => s
  | some position =>
    let pts := s.points ++ [position]
    let s1 := addMarkerM position { s with points := pts }
    if pts.length ≥ 3 then
      let area := calculateGeodesicArea G pts
      let s2 := { s1 with labels := removeFirst isAreaLabel s1.labels }
      let s3 := { s2 with pending := s2.pending ++ [formatValue area true] }
      { s3 with
        registry := updateOrCreateMeasurement MType.area area
          (pts.map (cartesianToLatLonAlt G)) s3.registry }
    else s1

/-- The body of the `.then` continuation of lines 2293-2295: it adds the
area label **without consulting the `isDestroyed` flag**.  Resolving one
pending terrain sample therefore always performs `addLabel`. -/
def resolveAreaTerrain (s : MState) : MState :=
  match s.pending with
  | [] => s
  | t :: rest => addLabelM t { s with pending := rest }

/-- The multi-distance `RIGHT_CLICK` finalizer (lines 2336-2349): when
the session has points and the last registry entry is active, the
`isActive` field is stripped from that entry; the session point list is
cleared. -/
def multiRightClick (s : MState) : MState :=
  if s.points.length > 0 then
    let s1 :=
      match s.registry.getLast? with
      | some lastResult =>
        if lastResult.isActive then
          { s with registry :=
              s.registry.dropLast ++ [{ lastResult with isActive := false }] }
        else s
      | none => s
    { s1 with points := [] }
  else s

/-- The area `RIGHT_CLICK` finalizer (lines 2354-2367): same as the
multi-distance one but guarded by `points.length >= 3`. -/
def areaRightClick (s : MState) : MState :=
  if s.points.length ≥ 3 then
    let s1 :=
      match s.registry.getLast? with
      | some lastResult =>
        if lastResult.isActive then
          { s with registry :=
              s.registry.dropLast ++ [{ lastResult with isActive := false }] }
        else s
      | none => s
    { s1 with points := [] }
  else s

/-- `clearInProgressMeasurement()` (lines 1375-1387): removes the
temporary visuals and resets the session point list; the registry is
**not** touched. -/
def clearInProgressMeasurement (s : MState) : MState :=
  { s with points := [] }

/-- `clearAllMeasurements()` (lines 1356-1373): removes every visual
entity and resets the session; the registry itself is owned by the host
model and is not modified here. -/
def clearAllMeasurements (s : MState) : MState :=
  { s with points := [], markers := [], labels := [] }

/-- `enableMeasurementMode(mode)` (lines 2312-2369) as it acts on the
session state: destroy the previous handler (handler slots are modelled
separately in `HState`), clear the in-progress geometry, and record the
new mode. -/
def enableMeasurementMode (m : Mode) (s : MState) : MState :=
  { clearInProgressMeasurement s with mode := m }

/-- The `change:measurement_results` model listener (lines 2496-2507):
a no-op once destroyed; otherwise an empty registry clears all visual
entities (the presentation list refresh keeps no state modelled here). -/
def measurementResultsListener (s : MState) : MState :=
  if s.destroyed then s
  else if s.registry.length == 0 then clearAllMeasurements s
  else s

/-- The `change:measurement_mode` model listener (lines 2486-2494): a
no-op once destroyed, otherwise `enableMeasurementMode(model.get(...))`. -/
def measurementModeListener (m : Mode) (s : MState) : MState :=
  if s.destroyed then s else enableMeasurementMode m s

/-- The `destroy()` teardown of the measurement module (lines 2561-2600):
sets the flag, destroys handlers, clears the visuals.  Pending promise
continuations cannot be cancelled and survive. -/
def destroyMeasurementTools (s : MState) : MState :=
  clearAllMeasurements { s with destroyed := true }

/-!
## Picking-handler slots (measurement handler vs. edit handler)
-/

/-- Install/destroy events on the two `ScreenSpaceEventHandler`
instances, in the order the code performs them. -/
inductive HEvent where
  | destroyMeas
  | installMeas
  | destroyEdit
  | installEdit
deriving DecidableEq, Repr

/-- Handler-slot view of the module: the current mode, whether edit mode
is enabled (`editState.enabled`), and whether each of the two
screen-space picking handlers is currently installed. -/
structure HState where
  mode : Mode
  editEnabled : Bool
  measInstalled : Bool
  editInstalled : Bool
deriving DecidableEq, Repr

/-- `enableMeasurementMode(mode)` (lines 2312-2369) on the handler
slots: an existing measurement handler is destroyed first, and a new one
is installed afterwards exactly when the mode is not empty.  The edit
handler is not consulted. -/
def enableMeasurementModeH (m : Mode) (s : HState) : HState × List HEvent :=
  let destroyEvents := if s.measInstalled then [HEvent.destroyMeas] else []
  let s1 := { s with measInstalled := false, mode := m }
  if m == Mode.off then (s1, destroyEvents)
  else ({ s1 with measInstalled := true }, destroyEvents ++ [HEvent.installMeas])

/-- `enableEditMode()` (lines 1391-1448) on the handler slots: if a
measurement mode is active the listener chain
`model.set("measurement_mode", "")` → `enableMeasurementMode("")`
destroys the measurement handler synchronously; then the edit handler is
installed. -/
def enableEditModeH (s : HState) : HState × List HEvent :=
  let (s1, evs) :=
    if s.mode != Mode.off then enableMeasurementModeH Mode.off s else (s, [])
  ({ s1 with editEnabled := true, editInstalled := true },
    evs ++ [HEvent.installEdit])

/-- `disableEditMode()` (lines 1450-1472) on the handler slots. -/
def disableEditModeH (s : HState) : HState × List HEvent :=
  let evs := if s.editInstalled then [HEvent.destroyEdit] else []
  ({ s with editEnabled := false, editInstalled := false }, evs)

/-- Operations that drive the handler slots: a `measurement_mode` change
observed by the model listener (from the toolbar buttons or from the
host), and the edit-button toggle. -/
inductive HOp where
  | setMode (m : Mode)
  | toggleEdit
deriving DecidableEq, Repr

/-- One handler-slot transition. -/
def stepH : HOp → HState → HState × List HEvent
  | HOp.setMode m, s => enableMeasurementModeH m s
  | HOp.toggleEdit, s =>
    if s.editEnabled then disableEditModeH s else enableEditModeH s

/-- Run a sequence of handler operations, discarding the event trace. -/
def runH (ops : List HOp) (s : HState) : HState :=
  ops.foldl (fun st op => (stepH op st).1) s

/-- The initial handler state: no mode, edit off, no handler installed. -/
def initH : HState := ⟨Mode.off, false, false, false⟩

/-!
## The measurement operation machine (for the registry invariant)
-/

/-- Core operations on the measurement session:

* `click` — a primary-button click in the current mode (`none` models a
  failed pick);
* `rightClick` — the secondary-button end signal (bound only in
  multi-distance and area modes);
* `setMode` — a `measurement_mode` change, running
  `enableMeasurementMode`;
* `editUpdate i pts v` — the registry-level effect of the point-edit
  commits `finalizeMeasurementUpdate` (lines 1704-1760) and
  `addPointToMeasurement` (lines 1860-1928): entry `i` gets new points
  and a recomputed value while its type, name and `isActive` field are
  preserved (both source paths write the entry back with spread-free
  in-place mutation of `points` and `value` only). -/
inductive MOp where
  | click (p : Option Cart3)
  | rightClick
  | setMode (m : Mode)
  | editUpdate (i : ℕ) (pts : List LLA) (v : ℚ)

/-- Replace points and value of registry entry `i` (the registry-level
effect of an edit commit). -/
def editUpdateRegistry (i : ℕ) (pts : List LLA) (v : ℚ)
    (results : List Meas) : List Meas :=
  match results[i]? with
  | none => results
  | some m => results.set i { m with points := pts, value := v }

/-- One transition of the measurement machine.  Clicks dispatch on the
current mode exactly as the handlers are bound in
`enableMeasurementMode`; a right click is a no-op outside the
multi-distance and area modes. -/
def stepM (G : Geo) : MOp → MState → MState
  | MOp.click p, s =>
    match s.mode with
    | Mode.off => s
    | Mode.distance => handleDistanceClick G p s
    | Mode.multiDistance => handleMultiDistanceClick G p s
    | Mode.height => handleHeightClick G p s
    | Mode.area => handleAreaClick G p s
  | MOp.rightClick, s =>
    match s.mode with
    | Mode.multiDistance => multiRightClick s
    | Mode.area => areaRightClick s
    | _ => s
  | MOp.setMode m, s => enableMeasurementMode m s
  | MOp.editUpdate i pts v, s =>
    { s with registry := editUpdateRegistry i pts v s.registry }

/-- Run a sequence of measurement operations. -/
def runM (G : Geo) (ops : List MOp) (s : MState) : MState :=
  ops.foldl (fun st op => stepM G op st) s

/-- The initial measurement state. -/
def initM : MState := ⟨Mode.off, [], [], [], [], [], false⟩

/-- `true` when every registry entry except possibly the last one is
inactive — the spec's "`isActive` is true for at most the last element". -/
def atMostLastActive : List Meas → Bool
  | [] => true
  | [_] => true
  | m :: r :: rest => !m.isActive && atMostLastActive (r :: rest)

/-- `true` when every registry entry is inactive. -/
def allInactive (results : List Meas) : Bool :=
  results.all (fun m => !m.isActive)

/-- Whether the last registry entry is active. -/
def lastIsActive (results : List Meas) : Bool :=
  match results.getLast? with
  | some m => m.isActive
  | none => false

/-- Type of the last registry entry, if any. -/
def lastType (results : List Meas) : Option MType :=
  (results.getLast?).map (fun m => m.type)

/-- The inductive invariant of the measurement machine (used to prove
the registry-activity claim): at most the last entry is active, and an
active last entry can only be a multi-distance entry while the mode is
multi-distance, or an area entry while the mode is area. -/
def invC3 (s : MState) : Bool :=
  atMostLastActive s.registry &&
    (!lastIsActive s.registry ||
      (s.mode == Mode.multiDistance && lastType s.registry == some MType.multiDistance ||
        s.mode == Mode.area && lastType s.registry == some MType.area))

/-- Guard under which the amended registry-activity claim holds: a mode
change may only happen when the last registry entry is not active (i.e.
after the in-progress multi-distance/area measurement was explicitly
ended). -/
def stepOK (s : MState) : MOp → Prop
  | MOp.setMode _ => lastIsActive s.registry = false
  | _ => True

/-- All steps of the run satisfy the guard. -/
def okRun (G : Geo) : List MOp → MState → Prop
  | [], _ => True
  | op :: ops, s => stepOK s op ∧ okRun G ops (stepM G op s)

/-!
## Registry predicate lemmas
-/

theorem atMostLastActive_eq_dropLast (R : List Meas) :
    atMostLastActive R = allInactive R.dropLast := by
  induction R with
  | nil => rfl
  | cons m rest ih =>
    cases rest with
    | nil => rfl
    | cons r rest2 =>
      simp only [atMostLastActive, ih, List.dropLast_cons_of_ne_nil,
        List.cons_ne_self, ne_eq, not_false_iff, allInactive, List.all_cons]
      rfl

theorem eq_dropLast_concat_of_getLast? (R : List Meas) (m : Meas)
    (h : R.getLast? = some m) : R = R.dropLast ++ [m] := by
  induction R with
  | nil => simp at h
  | cons a rest ih =>
    cases rest with
    | nil =>
      simp [List.getLast?] at h
      simp [h]
    | cons b rest2 =>
      have h2 : (b :: rest2).getLast? = some m := by
        simpa [List.getLast?_cons_cons] using h
      have := ih h2
      calc a :: b :: rest2 = a :: ((b :: rest2).dropLast ++ [m]) := by
            rw [← this]
        _ = (a :: b :: rest2).dropLast ++ [m] := by
            simp [List.dropLast_cons_of_ne_nil]

theorem atMostLastActive_concat (R : List Meas) (e : Meas) :
    atMostLastActive (R ++ [e]) = allInactive R := by
  rw [atMostLastActive_eq_dropLast, List.dropLast_concat]

theorem allInactive_of_atMostLast (R : List Meas)
    (h1 : atMostLastActive R = true) (h2 : lastIsActive R = false) :
    allInactive R = true := by
  cases hR : R.getLast? with
  | none =>
    have : R = [] := by
      cases R with
      | nil => rfl
      | cons a rest => simp [List.getLast?_eq_none_iff] at hR
    simp [this, allInactive]
  | some m =>
    have hsplit := eq_dropLast_concat_of_getLast? R m hR
    have hdrop : allInactive R.dropLast = true := by
      rw [← atMostLastActive_eq_dropLast]; exact h1
    have hm : m.isActive = false := by
      simpa [lastIsActive, hR] using h2
    rw [hsplit] at *
    simp only [allInactive, List.all_append, List.all_cons, List.all_nil,
      Bool.and_true, Bool.and_eq_true] at *
    exact ⟨by simpa [allInactive] using hdrop, by simp [hm]⟩

theorem lastIsActive_concat (R : List Meas) (e : Meas) :
    lastIsActive (R ++ [e]) = e.isActive := by
  simp [lastIsActive, List.getLast?_concat]

theorem lastType_concat (R : List Meas) (e : Meas) :
    lastType (R ++ [e]) = some e.type := by
  simp [lastType, List.getLast?_concat]

theorem editUpdateRegistry_map {α : Type} (f : Meas → α)
    (hf : ∀ (m : Meas) (pts : List LLA) (v : ℚ),
      f { m with points := pts, value := v } = f m)
    (i : ℕ) (pts : List LLA) (v : ℚ) (R : List Meas) :
    (editUpdateRegistry i pts v R).map f = R.map f := by
  induction R generalizing i with
  | nil => rfl
  | cons m rest ih =>
    cases i with
    | zero =>
      simp [editUpdateRegistry, List.set, hf]
    | succ j =>
      cases h : rest[j]? with
      | none =>
        simp [editUpdateRegistry, h]
      | some m2 =>
        have hrec := ih j
        simp only [editUpdateRegistry, h] at hrec
        simp only [editUpdateRegistry, List.getElem?_cons_succ, h,
          List.set_cons_succ, List.map_cons]
        exact congrArg (f m :: ·) hrec

theorem allInactive_eq_map (R : List Meas) :
    allInactive R = (R.map (fun m => m.isActive)).all (fun b => !b) := by
  induction R with
  | nil => rfl
  | cons m rest ih =>
    show (!m.isActive && allInactive rest)
      = (!m.isActive && ((rest.map (fun m => m.isActive)).all (fun b => !b)))
    rw [ih]

theorem lastIsActive_eq_map (R : List Meas) :
    lastIsActive R = ((R.map (fun m => m.isActive)).getLast?).getD false := by
  cases h : R.getLast? with
  | none =>
    simp [lastIsActive, h, List.getLast?_map]
  | some m =>
    simp [lastIsActive, h, List.getLast?_map]

theorem lastType_eq_map (R : List Meas) :
    lastType R = (R.map (fun m => m.type)).getLast? := by
  simp [lastType, List.getLast?_map]

theorem editUpdateRegistry_allInactive (i : ℕ) (pts : List LLA) (v : ℚ)
    (R : List Meas) :
    allInactive (editUpdateRegistry i pts v R) = allInactive R := by
  rw [allInactive_eq_map, allInactive_eq_map,
    editUpdateRegistry_map (fun m => m.isActive) (fun _ _ _ => rfl)]

theorem editUpdateRegistry_atMostLast (i : ℕ) (pts : List LLA) (v : ℚ)
    (R : List Meas) :
    atMostLastActive (editUpdateRegistry i pts v R) = atMostLastActive R := by
  rw [atMostLastActive_eq_dropLast, atMostLastActive_eq_dropLast,
    allInactive_eq_map, allInactive_eq_map, List.map_dropLast,
    List.map_dropLast,
    editUpdateRegistry_map (fun m => m.isActive) (fun _ _ _ => rfl)]

theorem editUpdateRegistry_lastIsActive (i : ℕ) (pts : List LLA) (v : ℚ)
    (R : List Meas) :
    lastIsActive (editUpdateRegistry i pts v R) = lastIsActive R := by
  rw [lastIsActive_eq_map, lastIsActive_eq_map,
    editUpdateRegistry_map (fun m => m.isActive) (fun _ _ _ => rfl)]

theorem editUpdateRegistry_lastType (i : ℕ) (pts : List LLA) (v : ℚ)
    (R : List Meas) :
    lastType (editUpdateRegistry i pts v R) = lastType R := by
  rw [lastType_eq_map, lastType_eq_map,
    editUpdateRegistry_map (fun m => m.type) (fun _ _ _ => rfl)]

/-!
## Handler characterizations used by the invariant proof
-/

theorem invC3_eq (s : MState) :
    invC3 s = (atMostLastActive s.registry &&
      (!lastIsActive s.registry ||
        (s.mode == Mode.multiDistance &&
            lastType s.registry == some MType.multiDistance ||
          s.mode == Mode.area && lastType s.registry == some MType.area))) :=
  rfl

theorem invC3_congr (s t : MState) (hm : t.mode = s.mode)
    (hr : t.registry = s.registry) : invC3 t = invC3 s := by
  rw [invC3_eq, invC3_eq, hm, hr]

theorem handleDistanceClick_mode (G : Geo) (p : Option Cart3) (s : MState) :
    (handleDistanceClick G p s).mode = s.mode := by
  cases p with
  | none => rfl
  | some q =>
    simp only [handleDistanceClick]
    split
    · rfl
    · split
      · rfl
      · rfl

theorem handleDistanceClick_registry (G : Geo) (p : Option Cart3) (s : MState) :
    (handleDistanceClick G p s).registry = s.registry ∨
      ∃ e : Meas, e.isActive = false ∧
        (handleDistanceClick G p s).registry = s.registry ++ [e] := by
  cases p with
  | none => exact Or.inl rfl
  | some q =>
    simp only [handleDistanceClick]
    split
    · exact Or.inl rfl
    · split
      · exact Or.inr ⟨_, rfl, rfl⟩
      · exact Or.inl rfl

theorem handleHeightClick_mode (G : Geo) (p : Option Cart3) (s : MState) :
    (handleHeightClick G p s).mode = s.mode := by
  cases p with
  | none => rfl
  | some q => rfl

theorem handleHeightClick_registry (G : Geo) (p : Option Cart3) (s : MState) :
    (handleHeightClick G p s).registry = s.registry ∨
      ∃ e : Meas, e.isActive = false ∧
        (handleHeightClick G p s).registry = s.registry ++ [e] := by
  cases p with
  | none => exact Or.inl rfl
  | some q => exact Or.inr ⟨_, rfl, rfl⟩

theorem handleMultiDistanceClick_mode (G : Geo) (p : Option Cart3) (s : MState) :
    (handleMultiDistanceClick G p s).mode = s.mode := by
  cases p with
  | none => rfl
  | some q =>
    simp only [handleMultiDistanceClick]
    split
    · rfl
    · rfl

theorem handleMultiDistanceClick_registry (G : Geo) (p : Option Cart3)
    (s : MState) :
    (handleMultiDistanceClick G p s).registry = s.registry ∨
      ∃ (v : ℚ) (pts : List LLA),
        (handleMultiDistanceClick G p s).registry =
          updateOrCreateMeasurement MType.multiDistance v pts s.registry := by
  cases p with
  | none => exact Or.inl rfl
  | some q =>
    simp only [handleMultiDistanceClick]
    split
    · exact Or.inl rfl
    · exact Or.inr ⟨_, _, rfl⟩

theorem handleAreaClick_mode (G : Geo) (p : Option Cart3) (s : MState) :
    (handleAreaClick G p s).mode = s.mode := by
  cases p with
  | none => rfl
  | some q =>
    simp only [handleAreaClick]
    split
    · rfl
    · rfl

theorem handleAreaClick_registry (G : Geo) (p : Option Cart3) (s : MState) :
    (handleAreaClick G p s).registry = s.registry ∨
      ∃ (v : ℚ) (pts : List LLA),
        (handleAreaClick G p s).registry =
          updateOrCreateMeasurement MType.area v pts s.registry := by
  cases p with
  | none => exact Or.inl rfl
  | some q =>
    simp only [handleAreaClick]
    split
    · exact Or.inr ⟨_, _, rfl⟩
    · exact Or.inl rfl

theorem multiRightClick_mode (s : MState) : (multiRightClick s).mode = s.mode := by
  simp only [multiRightClick]
  split
  · split
    · split
      · rfl
      · rfl
    · rfl
  · rfl

theorem multiRightClick_registry (s : MState) :
    (multiRightClick s).registry = s.registry ∨
      ∃ m : Meas, s.registry.getLast? = some m ∧
        (multiRightClick s).registry =
          s.registry.dropLast ++ [{ m with isActive := false }] := by
  simp only [multiRightClick]
  split
  · split
    · rename_i m hm
      split
      · exact Or.inr ⟨m, hm, rfl⟩
      · exact Or.inl rfl
    · exact Or.inl rfl
  · exact Or.inl rfl

theorem areaRightClick_mode (s : MState) : (areaRightClick s).mode = s.mode := by
  simp only [areaRightClick]
  split
  · split
    · split
      · rfl
      · rfl
    · rfl
  · rfl

theorem areaRightClick_registry (s : MState) :
    (areaRightClick s).registry = s.registry ∨
      ∃ m : Meas, s.registry.getLast? = some m ∧
        (areaRightClick s).registry =
          s.registry.dropLast ++ [{ m with isActive := false }] := by
  simp only [areaRightClick]
  split
  · split
    · rename_i m hm
      split
      · exact Or.inr ⟨m, hm, rfl⟩
      · exact Or.inl rfl
    · exact Or.inl rfl
  · exact Or.inl rfl

theorem updateOrCreate_inv (t : MType)
    (ht : (t == MType.multiDistance || t == MType.area) = true)
    (v : ℚ) (pts : List LLA) (R : List Meas)
    (h1 : atMostLastActive R = true)
    (h2 : lastIsActive R = true → lastType R = some t) :
    atMostLastActive (updateOrCreateMeasurement t v pts R) = true ∧
      lastIsActive (updateOrCreateMeasurement t v pts R) = true ∧
      lastType (updateOrCreateMeasurement t v pts R) = some t := by
  cases hR : R.getLast? with
  | none =>
    have hnil : R = [] := List.getLast?_eq_none_iff.mp hR
    simp only [updateOrCreateMeasurement, hR]
    refine ⟨?_, ?_, ?_⟩
    · rw [atMostLastActive_concat, hnil]; rfl
    · rw [lastIsActive_concat]; exact ht
    · rw [lastType_concat]
  | some lastResult =>
    simp only [updateOrCreateMeasurement, hR]
    split
    · rename_i hcond
      simp only [Bool.and_eq_true] at hcond
      obtain ⟨hty, hact⟩ := hcond
      have h1x : allInactive R.dropLast = true := by
        rw [← atMostLastActive_eq_dropLast]; exact h1
      refine ⟨?_, ?_, ?_⟩
      · rw [atMostLastActive_concat]; exact h1x
      · rw [lastIsActive_concat]; exact hact
      · rw [lastType_concat]
        exact congrArg some (eq_of_beq hty)
    · rename_i hcond
      have hnotactive : lastIsActive R = false := by
        cases h : lastIsActive R with
        | false => rfl
        | true =>
          exfalso
          have hty := h2 h
          have hlt : lastResult.type = t := by
            simp only [lastType, hR, Option.map_some'] at hty
            exact Option.some_injective _ hty
          have hla : lastResult.isActive = true := by
            simpa [lastIsActive, hR] using h
          exact hcond (by simp [hlt, hla])
      have hall : allInactive R = true :=
        allInactive_of_atMostLast R h1 hnotactive
      refine ⟨?_, ?_, ?_⟩
      · rw [atMostLastActive_concat]; exact hall
      · rw [lastIsActive_concat]; exact ht
      · rw [lastType_concat]

theorem allInactive_of_invC3 (s : MState) (hInv : invC3 s = true)
    (hm1 : (s.mode == Mode.multiDistance) = false)
    (hm2 : (s.mode == Mode.area) = false) :
    allInactive s.registry = true := by
  rw [invC3_eq] at hInv
  simp only [Bool.and_eq_true, Bool.or_eq_true] at hInv
  rcases hInv with ⟨h1, h2⟩
  rcases h2 with h3 | h3 | h3
  · exact allInactive_of_atMostLast s.registry h1 (by
      cases h : lastIsActive s.registry with
      | false => rfl
      | true => rw [h] at h3; exact absurd h3 (by simp))
  · rcases h3 with ⟨h5, _⟩
    rw [hm1] at h5
    exact absurd h5 (by simp)
  · rcases h3 with ⟨h5, _⟩
    rw [hm2] at h5
    exact absurd h5 (by simp)

theorem invC3_concat_inactive (s t : MState) (e : Meas)
    (he : e.isActive = false) (hr : t.registry = s.registry ++ [e])
    (hall : allInactive s.registry = true) : invC3 t = true := by
  rw [invC3_eq, hr, atMostLastActive_concat, lastIsActive_concat, hall, he]
  rfl

theorem invC3_deactivate (s t : MState) (m : Meas)
    (_hm : s.registry.getLast? = some m)
    (hr : t.registry = s.registry.dropLast ++ [{ m with isActive := false }])
    (h1 : atMostLastActive s.registry = true) : invC3 t = true := by
  have h1' : allInactive s.registry.dropLast = true := by
    rw [← atMostLastActive_eq_dropLast]; exact h1
  rw [invC3_eq, hr, atMostLastActive_concat, lastIsActive_concat, h1']
  rfl

theorem stepM_invC3 (G : Geo) (op : MOp) (s : MState)
    (hInv : invC3 s = true) (hOK : stepOK s op) :
    invC3 (stepM G op s) = true := by
  cases op with
  | click p =>
    cases hmode : s.mode with
    | off =>
      simpa [stepM, hmode] using hInv
    | distance =>
      simp only [stepM, hmode]
      rcases handleDistanceClick_registry G p s with hr | ⟨e, he, hr⟩
      · rw [invC3_congr s _ (handleDistanceClick_mode G p s) hr]
        exact hInv
      · exact invC3_concat_inactive s _ e he hr
          (allInactive_of_invC3 s hInv (by rw [hmode]; rfl) (by rw [hmode]; rfl))
    | multiDistance =>
      simp only [stepM, hmode]
      rcases handleMultiDistanceClick_registry G p s with hr | ⟨v, pts, hr⟩
      · rw [invC3_congr s _ (handleMultiDistanceClick_mode G p s) hr]
        exact hInv
      · have hInv2 := hInv
        rw [invC3_eq] at hInv2
        simp only [Bool.and_eq_true, Bool.or_eq_true] at hInv2
        rcases hInv2 with ⟨h1, hdisj⟩
        have h2 : lastIsActive s.registry = true →
            lastType s.registry = some MType.multiDistance := by
          intro hact
          rcases hdisj with h3 | h3 | h3
          · rw [hact] at h3
            exact absurd h3 (by simp)
          · exact eq_of_beq h3.2
          · rcases h3 with ⟨h5, -⟩
            rw [hmode] at h5
            exact absurd h5 (by decide)
        obtain ⟨hA, hL, hT⟩ :=
          updateOrCreate_inv MType.multiDistance rfl v pts s.registry h1 h2
        rw [invC3_eq, handleMultiDistanceClick_mode G p s, hmode, hr, hA, hL, hT]
        decide
    | height =>
      simp only [stepM, hmode]
      rcases handleHeightClick_registry G p s with hr | ⟨e, he, hr⟩
      · rw [invC3_congr s _ (handleHeightClick_mode G p s) hr]
        exact hInv
      · exact invC3_concat_inactive s _ e he hr
          (allInactive_of_invC3 s hInv (by rw [hmode]; rfl) (by rw [hmode]; rfl))
    | area =>
      simp only [stepM, hmode]
      rcases handleAreaClick_registry G p s with hr | ⟨v, pts, hr⟩
      · rw [invC3_congr s _ (handleAreaClick_mode G p s) hr]
        exact hInv
      · have hInv2 := hInv
        rw [invC3_eq] at hInv2
        simp only [Bool.and_eq_true, Bool.or_eq_true] at hInv2
        rcases hInv2 with ⟨h1, hdisj⟩
        have h2 : lastIsActive s.registry = true →
            lastType s.registry = some MType.area := by
          intro hact
          rcases hdisj with h3 | h3 | h3
          · rw [hact] at h3
            exact absurd h3 (by simp)
          · rcases h3 with ⟨h5, -⟩
            rw [hmode] at h5
            exact absurd h5 (by decide)
          · exact eq_of_beq h3.2
        obtain ⟨hA, hL, hT⟩ :=
          updateOrCreate_inv MType.area rfl v pts s.registry h1 h2
        rw [invC3_eq, handleAreaClick_mode G p s, hmode, hr, hA, hL, hT]
        decide
  | rightClick =>
    have hInv2 := hInv
    rw [invC3_eq] at hInv2
    simp only [Bool.and_eq_true] at hInv2
    cases hmode : s.mode with
    | off => simpa [stepM, hmode] using hInv
    | distance => simpa [stepM, hmode] using hInv
    | height => simpa [stepM, hmode] using hInv
    | multiDistance =>
      simp only [stepM, hmode]
      rcases multiRightClick_registry s with hr | ⟨m, hm, hr⟩
      · rw [invC3_congr s _ (multiRightClick_mode s) hr]
        exact hInv
      · exact invC3_deactivate s _ m hm hr hInv2.1
    | area =>
      simp only [stepM, hmode]
      rcases areaRightClick_registry s with hr | ⟨m, hm, hr⟩
      · rw [invC3_congr s _ (areaRightClick_mode s) hr]
        exact hInv
      · exact invC3_deactivate s _ m hm hr hInv2.1
  | setMode m =>
    have hOKx : lastIsActive s.registry = false := hOK
    have hInv2 := hInv
    rw [invC3_eq] at hInv2
    simp only [Bool.and_eq_true] at hInv2
    simp only [stepM]
    rw [invC3_eq]
    simp only [enableMeasurementMode, clearInProgressMeasurement]
    rw [hInv2.1, hOKx]
    rfl
  | editUpdate i pts v =>
    simp only [stepM]
    rw [invC3_eq]
    simp only [editUpdateRegistry_atMostLast, editUpdateRegistry_lastIsActive,
      editUpdateRegistry_lastType]
    rw [← invC3_eq]
    exact hInv

theorem runM_invC3 (G : Geo) (ops : List MOp) (s : MState)
    (hInv : invC3 s = true) (hOK : okRun G ops s) :
    invC3 (runM G ops s) = true := by
  induction ops generalizing s with
  | nil => simpa [runM] using hInv
  | cons op rest ih =>
    rcases hOK with ⟨h1, h2⟩
    have hstep := stepM_invC3 G op s hInv h1
    simpa [runM, List.foldl_cons] using ih (stepM G op s) hstep h2

/-!
## Click-sequence lemmas for the multi-distance and area sessions
-/

/-- A primary-button click sequence at the given picked positions. -/
def clicksOf (ps : List Cart3) : List MOp :=
  ps.map (fun p => MOp.click (some p))

/-- The active multi-distance entry maintained by the session after the
points `ps` have been collected, with its name computed from the
registry `R` it was created over. -/
def mkActiveMulti (G : Geo) (R : List Meas) (ps : List Cart3) : Meas :=
  ⟨MType.multiDistance, sumConsecutive G ps, ps.map (cartesianToLatLonAlt G),
    true,
    typeLabel MType.multiDistance ++ " " ++
      toString (countType R MType.multiDistance + 1)⟩

/-- The active area entry maintained by the session after the points
`ps` have been collected. -/
def mkActiveArea (G : Geo) (R : List Meas) (ps : List Cart3) : Meas :=
  ⟨MType.area, calculateGeodesicArea G ps, ps.map (cartesianToLatLonAlt G),
    true,
    typeLabel MType.area ++ " " ++ toString (countType R MType.area + 1)⟩

theorem updateOrCreate_append (t : MType) (v : ℚ) (pts : List LLA)
    (R : List Meas)
    (hnact : ∀ m, R.getLast? = some m → (m.type == t && m.isActive) = false) :
    updateOrCreateMeasurement t v pts R = R ++ [⟨t, v, pts,
      t == MType.multiDistance || t == MType.area,
      typeLabel t ++ " " ++ toString (countType R t + 1)⟩] := by
  unfold updateOrCreateMeasurement
  cases hR : R.getLast? with
  | none => rfl
  | some m => simp [hnact m hR]

theorem multiClick_first (G : Geo) (s : MState) (q : Cart3)
    (h0 : s.points = []) :
    (handleMultiDistanceClick G (some q) s).points = [q] ∧
      (handleMultiDistanceClick G (some q) s).registry = s.registry := by
  simp [handleMultiDistanceClick, h0, addMarkerM]

theorem multiClick_update (G : Geo) (s : MState) (q : Cart3)
    (hne : s.points ≠ []) :
    (handleMultiDistanceClick G (some q) s).points = s.points ++ [q] ∧
      (handleMultiDistanceClick G (some q) s).registry =
        updateOrCreateMeasurement MType.multiDistance
          (sumConsecutive G (s.points ++ [q]))
          ((s.points ++ [q]).map (cartesianToLatLonAlt G)) s.registry := by
  simp only [handleMultiDistanceClick]
  split
  · rename_i hcond
    exfalso
    have hlen : (s.points ++ [q]).length = 1 := eq_of_beq hcond
    rw [List.length_append] at hlen
    simp at hlen
    exact hne hlen
  · exact ⟨rfl, rfl⟩

theorem runM_clicks_cons (G : Geo) (q : Cart3) (qs : List Cart3) (s : MState) :
    runM G (clicksOf (q :: qs)) s =
      runM G (clicksOf qs) (stepM G (MOp.click (some q)) s) := by
  simp [runM, clicksOf]

theorem multiRun_phase2 (G : Geo) (qs : List Cart3) :
    ∀ (s : MState) (R : List Meas) (ps : List Cart3), ps ≠ [] →
      s.mode = Mode.multiDistance → s.points = ps →
      s.registry = R ++ [mkActiveMulti G R ps] →
      (runM G (clicksOf qs) s).mode = Mode.multiDistance ∧
        (runM G (clicksOf qs) s).points = ps ++ qs ∧
        (runM G (clicksOf qs) s).registry =
          R ++ [mkActiveMulti G R (ps ++ qs)] := by
  induction qs with
  | nil =>
    intro s R ps _ hm hp hr
    refine ⟨?_, ?_, ?_⟩
    · simpa [runM, clicksOf] using hm
    · simpa [runM, clicksOf] using hp
    · simpa [runM, clicksOf] using hr
  | cons q qs ih =>
    intro s R ps hne hm hp hr
    rw [runM_clicks_cons]
    have hstep : stepM G (MOp.click (some q)) s =
        handleMultiDistanceClick G (some q) s := by
      simp [stepM, hm]
    obtain ⟨hpts, hreg⟩ := multiClick_update G s q (by rw [hp]; exact hne)
    have hmode2 : (handleMultiDistanceClick G (some q) s).mode =
        Mode.multiDistance := by
      rw [handleMultiDistanceClick_mode]; exact hm
    have hreg2 : (handleMultiDistanceClick G (some q) s).registry =
        R ++ [mkActiveMulti G R (ps ++ [q])] := by
      rw [hreg, hp, hr]
      simp only [updateOrCreateMeasurement, List.getLast?_concat,
        mkActiveMulti]
      simp [List.dropLast_concat]
    have hpts2 : (handleMultiDistanceClick G (some q) s).points =
        ps ++ [q] := by
      rw [hpts, hp]
    rw [hstep]
    obtain ⟨h1, h2, h3⟩ := ih (handleMultiDistanceClick G (some q) s) R
      (ps ++ [q]) (by simp) hmode2 hpts2 hreg2
    refine ⟨h1, ?_, ?_⟩
    · rw [h2]
      simp
    · rw [h3]
      simp

theorem multiSequence (G : Geo) (s : MState) (p0 q0 : Cart3)
    (qs : List Cart3) (hm : s.mode = Mode.multiDistance)
    (hp : s.points = [])
    (hnact : ∀ m, s.registry.getLast? = some m →
      (m.type == MType.multiDistance && m.isActive) = false) :
    (runM G (clicksOf (p0 :: q0 :: qs)) s).mode = Mode.multiDistance ∧
      (runM G (clicksOf (p0 :: q0 :: qs)) s).points = p0 :: q0 :: qs ∧
      (runM G (clicksOf (p0 :: q0 :: qs)) s).registry =
        s.registry ++ [mkActiveMulti G s.registry (p0 :: q0 :: qs)] := by
  rw [runM_clicks_cons]
  have hstep1 : stepM G (MOp.click (some p0)) s =
      handleMultiDistanceClick G (some p0) s := by
    simp [stepM, hm]
  rw [hstep1]
  obtain ⟨hp1, hr1⟩ := multiClick_first G s p0 hp
  have hm1 : (handleMultiDistanceClick G (some p0) s).mode =
      Mode.multiDistance := by
    rw [handleMultiDistanceClick_mode]; exact hm
  rw [runM_clicks_cons]
  have hstep2 : stepM G (MOp.click (some q0))
      (handleMultiDistanceClick G (some p0) s) =
      handleMultiDistanceClick G (some q0)
        (handleMultiDistanceClick G (some p0) s) := by
    simp [stepM, hm1]
  rw [hstep2]
  obtain ⟨hp2, hr2⟩ := multiClick_update G
    (handleMultiDistanceClick G (some p0) s) q0 (by rw [hp1]; simp)
  have hm2 : (handleMultiDistanceClick G (some q0)
      (handleMultiDistanceClick G (some p0) s)).mode =
      Mode.multiDistance := by
    rw [handleMultiDistanceClick_mode]; exact hm1
  have hr2x : (handleMultiDistanceClick G (some q0)
      (handleMultiDistanceClick G (some p0) s)).registry =
      s.registry ++ [mkActiveMulti G s.registry [p0, q0]] := by
    rw [hr2, hp1, hr1]
    rw [updateOrCreate_append MType.multiDistance _ _ s.registry hnact]
    rfl
  have hp2x : (handleMultiDistanceClick G (some q0)
      (handleMultiDistanceClick G (some p0) s)).points = [p0, q0] := by
    rw [hp2, hp1]
    rfl
  obtain ⟨h1, h2, h3⟩ := multiRun_phase2 G qs
    (handleMultiDistanceClick G (some q0)
      (handleMultiDistanceClick G (some p0) s))
    s.registry [p0, q0] (by simp) hm2 hp2x hr2x
  refine ⟨h1, ?_, ?_⟩
  · rw [h2]
    rfl
  · rw [h3]
    rfl

theorem areaClick_small (G : Geo) (s : MState) (q : Cart3)
    (hlen : s.points.length + 1 < 3) :
    (handleAreaClick G (some q) s).points = s.points ++ [q] ∧
      (handleAreaClick G (some q) s).registry = s.registry := by
  simp only [handleAreaClick]
  split
  · rename_i hcond
    exfalso
    rw [List.length_append] at hcond
    simp at hcond
    omega
  · exact ⟨rfl, rfl⟩

theorem areaClick_big (G : Geo) (s : MState) (q : Cart3)
    (hlen : 3 ≤ s.points.length + 1) :
    (handleAreaClick G (some q) s).points = s.points ++ [q] ∧
      (handleAreaClick G (some q) s).registry =
        updateOrCreateMeasurement MType.area
          (calculateGeodesicArea G (s.points ++ [q]))
          ((s.points ++ [q]).map (cartesianToLatLonAlt G)) s.registry := by
  simp only [handleAreaClick]
  split
  · exact ⟨rfl, rfl⟩
  · rename_i hcond
    exfalso
    rw [List.length_append] at hcond
    simp at hcond
    omega

theorem areaRun_phase2 (G : Geo) (qs : List Cart3) :
    ∀ (s : MState) (R : List Meas) (ps : List Cart3), 3 ≤ ps.length →
      s.mode = Mode.area → s.points = ps →
      s.registry = R ++ [mkActiveArea G R ps] →
      (runM G (clicksOf qs) s).mode = Mode.area ∧
        (runM G (clicksOf qs) s).points = ps ++ qs ∧
        (runM G (clicksOf qs) s).registry =
          R ++ [mkActiveArea G R (ps ++ qs)] := by
  induction qs with
  | nil =>
    intro s R ps _ hm hp hr
    refine ⟨?_, ?_, ?_⟩
    · simpa [runM, clicksOf] using hm
    · simpa [runM, clicksOf] using hp
    · simpa [runM, clicksOf] using hr
  | cons q qs ih =>
    intro s R ps hlen hm hp hr
    rw [runM_clicks_cons]
    have hstep : stepM G (MOp.click (some q)) s =
        handleAreaClick G (some q) s := by
      simp [stepM, hm]
    obtain ⟨hpts, hreg⟩ := areaClick_big G s q (by rw [hp]; omega)
    have hmode2 : (handleAreaClick G (some q) s).mode = Mode.area := by
      rw [handleAreaClick_mode]; exact hm
    have hreg2 : (handleAreaClick G (some q) s).registry =
        R ++ [mkActiveArea G R (ps ++ [q])] := by
      rw [hreg, hp, hr]
      simp only [updateOrCreateMeasurement, List.getLast?_concat, mkActiveArea]
      simp [List.dropLast_concat]
    have hpts2 : (handleAreaClick G (some q) s).points = ps ++ [q] := by
      rw [hpts, hp]
    rw [hstep]
    obtain ⟨h1, h2, h3⟩ := ih (handleAreaClick G (some q) s) R (ps ++ [q])
      (by rw [List.length_append]; simp; omega) hmode2 hpts2 hreg2
    refine ⟨h1, ?_, ?_⟩
    · rw [h2]
      simp
    · rw [h3]
      simp

theorem areaSequence (G : Geo) (s : MState) (p0 p1 p2 : Cart3)
    (qs : List Cart3) (hm : s.mode = Mode.area) (hp : s.points = [])
    (hnact : ∀ m, s.registry.getLast? = some m →
      (m.type == MType.area && m.isActive) = false) :
    (runM G (clicksOf (p0 :: p1 :: p2 :: qs)) s).mode = Mode.area ∧
      (runM G (clicksOf (p0 :: p1 :: p2 :: qs)) s).points =
        p0 :: p1 :: p2 :: qs ∧
      (runM G (clicksOf (p0 :: p1 :: p2 :: qs)) s).registry =
        s.registry ++ [mkActiveArea G s.registry (p0 :: p1 :: p2 :: qs)] := by
  rw [runM_clicks_cons]
  have hstep1 : stepM G (MOp.click (some p0)) s =
      handleAreaClick G (some p0) s := by
    simp [stepM, hm]
  rw [hstep1]
  obtain ⟨hpA, hrA⟩ := areaClick_small G s p0 (by rw [hp]; simp)
  have hmA : (handleAreaClick G (some p0) s).mode = Mode.area := by
    rw [handleAreaClick_mode]; exact hm
  set s1 := handleAreaClick G (some p0) s with hs1
  have hpA1 : s1.points = [p0] := by rw [hpA, hp]; rfl
  rw [runM_clicks_cons]
  have hstep2 : stepM G (MOp.click (some p1)) s1 =
      handleAreaClick G (some p1) s1 := by
    simp [stepM, hmA]
  rw [hstep2]
  obtain ⟨hpB, hrB⟩ := areaClick_small G s1 p1 (by rw [hpA1]; simp)
  have hmB : (handleAreaClick G (some p1) s1).mode = Mode.area := by
    rw [handleAreaClick_mode]; exact hmA
  set s2 := handleAreaClick G (some p1) s1 with hs2
  have hpB1 : s2.points = [p0, p1] := by rw [hpB, hpA1]; rfl
  have hrB1 : s2.registry = s.registry := by rw [hrB, hrA]
  rw [runM_clicks_cons]
  have hstep3 : stepM G (MOp.click (some p2)) s2 =
      handleAreaClick G (some p2) s2 := by
    simp [stepM, hmB]
  rw [hstep3]
  obtain ⟨hpC, hrC⟩ := areaClick_big G s2 p2 (by rw [hpB1]; simp)
  have hmC : (handleAreaClick G (some p2) s2).mode = Mode.area := by
    rw [handleAreaClick_mode]; exact hmB
  set s3 := handleAreaClick G (some p2) s2 with hs3
  have hpC1 : s3.points = [p0, p1, p2] := by rw [hpC, hpB1]; rfl
  have hrC1 : s3.registry =
      s.registry ++ [mkActiveArea G s.registry [p0, p1, p2]] := by
    rw [hrC, hpB1, hrB1]
    rw [updateOrCreate_append MType.area _ _ s.registry hnact]
    rfl
  obtain ⟨h1, h2, h3⟩ := areaRun_phase2 G qs s3 s.registry [p0, p1, p2]
    (by simp) hmC hpC1 hrC1
  refine ⟨h1, ?_, ?_⟩
  · rw [h2]
    rfl
  · rw [h3]
    rfl

theorem distClick_first (G : Geo) (s : MState) (q : Cart3)
    (h0 : s.points = []) :
    (handleDistanceClick G (some q) s).points = [q] ∧
      (handleDistanceClick G (some q) s).registry = s.registry := by
  simp [handleDistanceClick, h0, addMarkerM]

theorem distClick_second (G : Geo) (s : MState) (p q : Cart3)
    (h1 : s.points = [p]) :
    (handleDistanceClick G (some q) s).points = [] ∧
      (handleDistanceClick G (some q) s).registry = s.registry ++
        [⟨MType.distance, calculateDistance G p q,
          [cartesianToLatLonAlt G p, cartesianToLatLonAlt G q], false,
          "Distance " ++ toString (countType s.registry MType.distance + 1)⟩] := by
  simp [handleDistanceClick, h1, addMarkerM, addLabelM]

/-- The value recomputation of `finalizeMeasurementUpdate` (lines
1732-1746), applied to the entity positions of the edited measurement:
chord distance for `distance`, **absolute** cartographic height
difference for `height`, the running-total loop for `multi-distance`,
and `calculateGeodesicArea` for `area`. -/
def recomputeValue (G : Geo) (t : MType) (positions : List Cart3) : ℚ :=
  match t with
  | MType.distance =>
    cesDistance G (positions.getD 0 ⟨0, 0, 0⟩) (positions.getD 1 ⟨0, 0, 0⟩)
  | MType.height =>
    let c0 := G.fromCartesian (positions.getD 0 ⟨0, 0, 0⟩)
    let c1 := G.fromCartesian (positions.getD 1 ⟨0, 0, 0⟩)
    |c1.height - c0.height|
  | MType.multiDistance => sumConsecutive G positions
  | MType.area => calculateGeodesicArea G positions

/-- A concrete instantiation of the external Cesium primitives, used by
the counterexample theorems: the square root and the degree conversion
are the identity, cartographic conversion reads the coordinates
directly (`latitude := y`, `longitude := x`, `height := z`, with
`fromRadians` its inverse), the terrain height is the constant `10`,
and triangulation yields no geometry. -/
def idGeo : Geo where
  sqrtFn := id
  fromCartesian := fun p => ⟨p.y, p.x, p.z⟩
  toDegrees := id
  fromRadians := fun lon lat h => ⟨lon, lat, h⟩
  getHeight := fun _ => some 10
  triangulate := fun _ => none

theorem runM_append (G : Geo) (a b : List MOp) (s : MState) :
    runM G (a ++ b) s = runM G b (runM G a s) := by
  simp [runM, List.foldl_append]

theorem multiRightClick_finalize (s : MState) (e : Meas) (R : List Meas)
    (hreg : s.registry = R ++ [e]) (hact : e.isActive = true)
    (hpts : s.points ≠ []) :
    (multiRightClick s).registry = R ++ [{ e with isActive := false }] ∧
      (multiRightClick s).points = [] ∧
      (multiRightClick s).mode = s.mode := by
  have hlen : s.points.length > 0 := List.length_pos.mpr hpts
  simp only [multiRightClick, hreg, List.getLast?_concat, hact, if_pos hlen]
  simp [List.dropLast_concat]

theorem activeCount_le_one (R : List Meas)
    (h : atMostLastActive R = true) :
    (R.filter (fun m => m.isActive)).length ≤ 1 := by
  induction R with
  | nil => simp
  | cons m rest ih =>
    cases rest with
    | nil =>
      cases hm : m.isActive <;> simp [List.filter, hm]
    | cons r rest2 =>
      simp only [atMostLastActive, Bool.and_eq_true] at h
      obtain ⟨hm, hrest⟩ := h
      have hmf : m.isActive = false := by
        cases hmi : m.isActive
        · rfl
        · rw [hmi] at hm; exact absurd hm (by decide)
      simpa [List.filter, hmf] using ih hrest

/-- A JS value that is a number and not `NaN`: a finite number or one of
the two infinities. -/
def nonNaNNumber (v : JSVal) : Prop :=
  v = JSVal.inf ∨ v = JSVal.ninf ∨ ∃ q : ℚ, v = JSVal.num q

theorem validateCameraParameters_spec (lat lon alt : JSVal) :
    validateCameraParameters lat lon alt = true ↔
      ((∃ q : ℚ, lat = JSVal.num q ∧ -90 ≤ q ∧ q ≤ 90) ∧
        nonNaNNumber lon ∧ nonNaNNumber alt) := by
  cases lat <;> cases lon <;> cases alt <;>
    simp [validateCameraParameters, nonNaNNumber, JSVal.isNumber,
      JSVal.isNaNv, JSVal.ltc, JSVal.gtc, not_lt]

theorem validateOrientationAngles_spec (h p r : JSVal) :
    validateOrientationAngles h p r = true ↔
      (nonNaNNumber h ∧ nonNaNNumber p ∧ nonNaNNumber r) := by
  cases h <;> cases p <;> cases r <;>
    simp [validateOrientationAngles, nonNaNNumber, JSVal.isNumber,
      JSVal.isNaNv]

theorem updateCameraFromModelImmediate_isSome (s : CamState) :
    (updateCameraFromModelImmediate s).isSome =
      (!s.destroyed &&
        validateCameraParameters s.latitude s.longitude s.altitude &&
        validateOrientationAngles s.heading s.pitch s.roll) := by
  unfold updateCameraFromModelImmediate
  cases hd : s.destroyed
  · cases hv : validateCameraParameters s.latitude s.longitude s.altitude
    · simp [hv]
    · cases ho : validateOrientationAngles s.heading s.pitch s.roll
      · simp [hv, ho]
      · simp [hv, ho]
  · simp

deriving instance Fintype for Mode

deriving instance Fintype for HState

deriving instance Fintype for HOp

/-- Inductive invariant of the handler slots: the two handlers are never
both installed, the measurement handler is installed exactly when a mode
is active, the edit handler is installed exactly while edit mode is
enabled, and edit mode forces the mode to none. -/
def invC7 (s : HState) : Bool :=
  (!(s.measInstalled && s.editInstalled)) &&
    (s.measInstalled == (s.mode != Mode.off)) &&
    (s.editInstalled == s.editEnabled) &&
    (!s.editEnabled || s.mode == Mode.off)

/-- Guard of the amended handler-exclusivity claim: a measurement mode
may only be enabled while edit mode is off (the code does not enforce
this, which is exactly what the counterexample exploits). -/
def stepOKH (s : HState) : HOp → Bool
  | HOp.setMode m => !s.editEnabled || m == Mode.off
  | HOp.toggleEdit => true

/-- All steps of a handler run satisfy the guard. -/
def okRunH : List HOp → HState → Prop
  | [], _ => True
  | op :: ops, s => stepOKH s op = true ∧ okRunH ops (stepH op s).1

theorem stepH_invC7 : ∀ (s : HState) (op : HOp),
    invC7 s = true → stepOKH s op = true → invC7 (stepH op s).1 = true := by
  decide

theorem runH_invC7 (ops : List HOp) (s : HState) (hInv : invC7 s = true)
    (hOK : okRunH ops s) : invC7 (runH ops s) = true := by
  induction ops generalizing s with
  | nil => simpa [runH] using hInv
  | cons op rest ih =>
    rcases hOK with ⟨h1, h2⟩
    have hstep := stepH_invC7 s op hInv h1
    simpa [runH, List.foldl_cons] using ih (stepH op s).1 hstep h2

/-!
## Claim theorems
-/

theorem distSequence (G : Geo) (s : MState) (p q : Cart3)
    (hm : s.mode = Mode.distance) (hp : s.points = []) :
    (runM G (clicksOf [p, q]) s).registry = s.registry ++
      [⟨MType.distance, calculateDistance G p q,
        [cartesianToLatLonAlt G p, cartesianToLatLonAlt G q], false,
        "Distance " ++ toString (countType s.registry MType.distance + 1)⟩] ∧
      (runM G (clicksOf [p, q]) s).points = [] := by
  rw [runM_clicks_cons]
  have hstep1 : stepM G (MOp.click (some p)) s =
      handleDistanceClick G (some p) s := by
    simp [stepM, hm]
  rw [hstep1]
  obtain ⟨h1p, h1r⟩ := distClick_first G s p hp
  have h1m : (handleDistanceClick G (some p) s).mode = Mode.distance := by
    rw [handleDistanceClick_mode]; exact hm
  rw [runM_clicks_cons]
  have hstep2 : stepM G (MOp.click (some q))
      (handleDistanceClick G (some p) s) =
      handleDistanceClick G (some q) (handleDistanceClick G (some p) s) := by
    simp [stepM, h1m]
  rw [hstep2]
  obtain ⟨h2p, h2r⟩ :=
    distClick_second G (handleDistanceClick G (some p) s) p q h1p
  constructor
  · simp only [runM, clicksOf, List.map_nil, List.foldl_nil]
    rw [h2r, h1r]
  · simp only [runM, clicksOf, List.map_nil, List.foldl_nil]
    exact h2p

/-- C1: in multi-distance mode, starting from an empty session whose
registry does not end in an active multi-distance entry, a sequence of
two or more accepted points appends exactly one registry entry — active,
with value the sum of consecutive chord distances over the collected
points (applying this theorem to every prefix of the sequence shows each
point after the entry exists mutates that same last entry in place);
the explicit right-click end strips `isActive` from that same last
entry, and the next accepted point sequence appends a fresh entry. -/
theorem C1_multiDistance_session (G : Geo) (s : MState) (p0 q0 : Cart3)
    (qs : List Cart3) (p1 q1 : Cart3) (rs : List Cart3)
    (hm : s.mode = Mode.multiDistance) (hp : s.points = [])
    (hnact : ∀ m, s.registry.getLast? = some m →
      (m.type == MType.multiDistance && m.isActive) = false) :
    (runM G (clicksOf (p0 :: q0 :: qs)) s).registry =
      s.registry ++ [mkActiveMulti G s.registry (p0 :: q0 :: qs)] ∧
      (mkActiveMulti G s.registry (p0 :: q0 :: qs)).value =
        sumConsecutive G (p0 :: q0 :: qs) ∧
      (mkActiveMulti G s.registry (p0 :: q0 :: qs)).isActive = true ∧
      (runM G (clicksOf (p0 :: q0 :: qs) ++ [MOp.rightClick]) s).registry =
        s.registry ++ [{ mkActiveMulti G s.registry (p0 :: q0 :: qs) with
          isActive := false }] ∧
      (runM G (clicksOf (p0 :: q0 :: qs) ++ [MOp.rightClick]
          ++ clicksOf (p1 :: q1 :: rs)) s).registry =
        (s.registry ++ [{ mkActiveMulti G s.registry (p0 :: q0 :: qs) with
          isActive := false }]) ++
          [mkActiveMulti G
            (s.registry ++ [{ mkActiveMulti G s.registry (p0 :: q0 :: qs) with
              isActive := false }]) (p1 :: q1 :: rs)] := by
  obtain ⟨hA, hB, hC⟩ := multiSequence G s p0 q0 qs hm hp hnact
  have hone : ∀ t : MState, t.mode = Mode.multiDistance →
      runM G [MOp.rightClick] t = multiRightClick t := by
    intro t hmode
    simp [runM, stepM, hmode]
  have hrc : runM G (clicksOf (p0 :: q0 :: qs) ++ [MOp.rightClick]) s =
      multiRightClick (runM G (clicksOf (p0 :: q0 :: qs)) s) := by
    rw [runM_append]
    exact hone _ hA
  obtain ⟨hR1, hR2, hR3⟩ := multiRightClick_finalize
    (runM G (clicksOf (p0 :: q0 :: qs)) s)
    (mkActiveMulti G s.registry (p0 :: q0 :: qs)) s.registry hC rfl
    (by rw [hB]; simp)
  have hmode2 : (multiRightClick (runM G (clicksOf (p0 :: q0 :: qs)) s)).mode =
      Mode.multiDistance := by
    rw [hR3, hA]
  have hnact2 : ∀ m,
      (multiRightClick (runM G (clicksOf (p0 :: q0 :: qs)) s)).registry.getLast?
        = some m → (m.type == MType.multiDistance && m.isActive) = false := by
    intro m hmeq
    rw [hR1, List.getLast?_concat] at hmeq
    have := Option.some_injective _ hmeq
    rw [← this]
    simp
  obtain ⟨hA2, hB2, hC2⟩ := multiSequence G
    (multiRightClick (runM G (clicksOf (p0 :: q0 :: qs)) s)) p1 q1 rs
    hmode2 hR2 hnact2
  refine ⟨hC, rfl, rfl, ?_, ?_⟩
  · rw [hrc, hR1]
  · rw [runM_append, hrc, hC2, hR1]

/-- C2: in distance mode with an empty session, two accepted picks
append exactly one registry entry whose value is the Euclidean chord
distance — the square root of the sum of squared world-frame coordinate
differences — between the two recorded points; the session point list is
empty afterwards, so the measurement finalized on the second point. -/
theorem C2_distance_two_clicks (G : Geo) (s : MState) (p q : Cart3)
    (hm : s.mode = Mode.distance) (hp : s.points = []) :
    (runM G (clicksOf [p, q]) s).registry = s.registry ++
      [⟨MType.distance, G.sqrtFn (distSq p q),
        [cartesianToLatLonAlt G p, cartesianToLatLonAlt G q], false,
        "Distance " ++ toString (countType s.registry MType.distance + 1)⟩] ∧
      (runM G (clicksOf [p, q]) s).points = [] ∧
      (runM G (clicksOf [p, q]) s).registry.length = s.registry.length + 1 := by
  obtain ⟨h1, h2⟩ := distSequence G s p q hm hp
  refine ⟨h1, h2, ?_⟩
  rw [h1, List.length_append]
  rfl

/-- Operation sequence refuting the claim that at most the last registry
entry is ever active: a multi-distance measurement is left active when
the mode switches to area, and the area measurement then appends behind
it. -/
def c3ops : List MOp :=
  [MOp.setMode Mode.multiDistance, MOp.click (some ⟨0, 0, 0⟩),
    MOp.click (some ⟨1, 0, 0⟩), MOp.setMode Mode.area,
    MOp.click (some ⟨0, 0, 0⟩), MOp.click (some ⟨1, 0, 0⟩),
    MOp.click (some ⟨0, 1, 0⟩)]

/-- C3 (counterexample): after entering multi-distance mode, clicking
two points, switching to area mode without an end signal and clicking
three points, the registry holds two entries that are **both** active,
so an entry other than the last one has `isActive` set — the claimed
invariant fails on a reachable state. -/
theorem C3_counterexample :
    atMostLastActive (runM idGeo c3ops initM).registry = false ∧
      ((runM idGeo c3ops initM).registry.filter
        (fun m => m.isActive)).length = 2 := by
  decide

/-- C3 (amended): the invariant does hold for every operation sequence
in which a mode change only happens while the last registry entry is not
active (that is, after any in-progress multi-distance/area measurement
was ended by right click): at most the last entry is active and at most
one measurement is in progress. -/
theorem C3_amended (G : Geo) (ops : List MOp) (s : MState)
    (hInv : invC3 s = true) (hOK : okRun G ops s) :
    atMostLastActive (runM G ops s).registry = true ∧
      ((runM G ops s).registry.filter (fun m => m.isActive)).length ≤ 1 := by
  have h := runM_invC3 G ops s hInv hOK
  rw [invC3_eq] at h
  simp only [Bool.and_eq_true] at h
  exact ⟨h.1, activeCount_le_one _ h.1⟩

theorem C3_witness :
    atMostLastActive (runM idGeo [MOp.setMode Mode.distance] initM).registry
        = true ∧
      ((runM idGeo [MOp.setMode Mode.distance] initM).registry.filter
        (fun m => m.isActive)).length ≤ 1 :=
  C3_amended idGeo [MOp.setMode Mode.distance] initM (by decide)
    ⟨rfl, trivial⟩

/-- C4 (counterexample): a height click whose picked point lies below
the terrain (cartographic height 4, terrain height 10) stores the
**negative** value `-6`, while the claimed absolute difference is `6` —
the live height path has no `Math.abs`. -/
theorem C4_counterexample :
    ((handleHeightClick idGeo (some ⟨0, 0, 4⟩) initM).registry.map
        (fun m => m.value)) = [(-6 : ℚ)] ∧
      |(4 : ℚ) - 10| = 6 ∧ ((-6 : ℚ) ≠ (6 : ℚ)) := by
  refine ⟨?_, by norm_num [abs_of_nonpos], by norm_num⟩
  simp [handleHeightClick, idGeo, initM, addMarkerM, addLabelM]
  norm_num

/-- C4 (amended): every successful height pick appends exactly one
immediately-final registry entry whose value is the **signed**
difference `pickedAltitude - terrainAltitude` (negative whenever the
picked point lies below the local terrain height); the two stored points
are the ground-projected counterpart and the raw picked point. -/
theorem C4_amended (G : Geo) (p : Cart3) (s : MState) :
    (handleHeightClick G (some p) s).registry = s.registry ++
      [⟨MType.height,
        (G.fromCartesian p).height - ((G.getHeight (G.fromCartesian p)).getD 0),
        [cartesianToLatLonAlt G (G.fromRadians (G.fromCartesian p).longitude
            (G.fromCartesian p).latitude
            ((G.getHeight (G.fromCartesian p)).getD 0)),
          cartesianToLatLonAlt G p], false,
        "Height " ++ toString (countType s.registry MType.height + 1)⟩] ∧
      (handleHeightClick G (some p) s).points = s.points :=
  ⟨rfl, rfl⟩

/-- Camera state whose longitude is `+Infinity` while every other field
is a valid finite number. -/
def c5state : CamState :=
  ⟨false, false, JSVal.num 0, JSVal.inf, JSVal.num 0, JSVal.num 0,
    JSVal.num 0, JSVal.num 0, false, false⟩

/-- C5 (counterexample): an inbound camera update whose longitude is
`+Infinity` passes validation and reaches the render engine — the
claimed finiteness check does not exist. -/
theorem C5_counterexample :
    updateCameraFromModelImmediate c5state =
      some (CamEffect.setViewDeg JSVal.inf (JSVal.num 0) (JSVal.num 0)
        (JSVal.num 0) (JSVal.num 0) (JSVal.num 0)) ∧
      c5state.longitude = JSVal.inf := by
  decide

/-- C5 (amended): an inbound camera update is applied to the render
engine precisely when the module is not destroyed, every field is a
number that is not `NaN`, and the latitude is a finite number in
`[-90, 90]`; `NaN` anywhere or an out-of-range (hence also non-finite)
latitude is dropped, but `±Infinity` in longitude, altitude, heading,
pitch or roll passes validation. -/
theorem C5_amended (s : CamState) :
    (updateCameraFromModelImmediate s).isSome = true ↔
      (s.destroyed = false ∧
        (∃ q : ℚ, s.latitude = JSVal.num q ∧ -90 ≤ q ∧ q ≤ 90) ∧
        nonNaNNumber s.longitude ∧ nonNaNNumber s.altitude ∧
        nonNaNNumber s.heading ∧ nonNaNNumber s.pitch ∧
        nonNaNNumber s.roll) := by
  rw [updateCameraFromModelImmediate_isSome]
  simp only [Bool.and_eq_true, Bool.not_eq_true']
  rw [validateCameraParameters_spec, validateOrientationAngles_spec]
  tauto

/-- Area session whose terrain-sampling continuation is still pending
when the module is destroyed. -/
def c6ops : List MOp :=
  [MOp.setMode Mode.area, MOp.click (some ⟨0, 0, 0⟩),
    MOp.click (some ⟨1, 0, 0⟩), MOp.click (some ⟨0, 1, 0⟩)]

/-- The state right after teardown with one unresolved terrain sample. -/
def c6state : MState := destroyMeasurementTools (runM idGeo c6ops initM)

/-- C6 (counterexample): the `.then` continuation of the area
terrain-sampling promise does not check the destroyed flag: resolving it
after teardown still adds a label entity to the viewer, so a
post-teardown side effect is performed. -/
theorem C6_counterexample :
    c6state.destroyed = true ∧ c6state.labels = [] ∧
      (resolveAreaTerrain c6state).labels = [⟨0, MUnit.m2, 2⟩] := by
  decide

/-- Destroyed camera-sync module state. -/
def camDead : CamState :=
  ⟨true, true, JSVal.num 0, JSVal.num 0, JSVal.num 0, JSVal.num 0,
    JSVal.num 0, JSVal.num 0, false, false⟩

/-- Destroyed measurement module state. -/
def mDead : MState := { initM with destroyed := true }

/-- C6 (amended): every modelled event handler and every timeout
continuation of the two modules checks the destroyed flag first and is a
no-op once it is set — with the exception of the terrain-sampling
`.then` continuations placing the area label, which perform `addLabel`
regardless (see the counterexample). -/
theorem C6_amended (s : CamState) (t : MState) (cam : HostPoseWrite)
    (c : Option CameraCommand) (m : Mode)
    (hs : s.destroyed = true) (ht : t.destroyed = true) :
    handleCameraChanged s = s ∧
      updateCameraFromModelImmediate s = none ∧
      inboundTimeoutFire s = none ∧
      outboundTimeoutFire cam s = none ∧
      updateModelFromCamera cam s = none ∧
      handleCameraCommand s c = [] ∧
      measurementResultsListener t = t ∧
      measurementModeListener m t = t := by
  refine ⟨?_, ?_, ?_, ?_, ?_, ?_, ?_, ?_⟩ <;>
    simp [handleCameraChanged, updateCameraFromModelImmediate,
      inboundTimeoutFire, outboundTimeoutFire, updateModelFromCamera,
      handleCameraCommand, measurementResultsListener,
      measurementModeListener, hs, ht]

theorem C6_witness :
    handleCameraChanged camDead = camDead ∧
      measurementResultsListener mDead = mDead :=
  ⟨(C6_amended camDead mDead ⟨0, 0, 0, 0, 0, 0⟩ none Mode.off rfl rfl).1,
    (C6_amended camDead mDead ⟨0, 0, 0, 0, 0, 0⟩ none Mode.off
      rfl rfl).2.2.2.2.2.2.1⟩

/-- C7 (counterexample): enabling edit mode and then enabling a
measurement mode leaves **both** screen-space picking handlers
installed: `enableMeasurementMode` never destroys the edit handler. -/
theorem C7_counterexample :
    (runH [HOp.toggleEdit, HOp.setMode Mode.distance] initH).measInstalled
        = true ∧
      (runH [HOp.toggleEdit, HOp.setMode Mode.distance] initH).editInstalled
        = true := by
  decide

/-- C7 (amended): provided a measurement mode is only enabled while edit
mode is off, at most one of the two picking handlers is installed in any
reachable state; moreover every measurement-mode switch that replaces an
installed handler emits its destroy before the new install. -/
theorem C7_amended (ops : List HOp) (s : HState) (hInv : invC7 s = true)
    (hOK : okRunH ops s) :
    ((runH ops s).measInstalled = false ∨
      (runH ops s).editInstalled = false) ∧
      (∀ (u : HState) (m : Mode), u.measInstalled = true → m ≠ Mode.off →
        (stepH (HOp.setMode m) u).2 =
          [HEvent.destroyMeas, HEvent.installMeas]) := by
  constructor
  · have h := runH_invC7 ops s hInv hOK
    simp only [invC7, Bool.and_eq_true, Bool.not_eq_true'] at h
    have h1 := h.1.1.1
    cases hmi : (runH ops s).measInstalled
    · exact Or.inl rfl
    · right
      rw [hmi] at h1
      simpa using h1
  · decide

theorem C7_witness :
    (runH [HOp.toggleEdit] initH).measInstalled = false ∨
      (runH [HOp.toggleEdit] initH).editInstalled = false :=
  (C7_amended [HOp.toggleEdit] initH (by decide) ⟨rfl, trivial⟩).1

/-- C8 (counterexample): for a height measurement the edit-commit
recomputation (`finalizeMeasurementUpdate`, which takes the absolute
height difference of the two stored points) disagrees with constructing
the measurement from scratch at the same coordinates (which stores the
signed `pickedAltitude - terrainAltitude`): with a picked point of
cartographic height 4 over terrain height 10 the scratch value is `-6`
while the recommitted value is `6`. -/
theorem C8_counterexample :
    ((handleHeightClick idGeo (some ⟨0, 0, 4⟩) initM).registry.map
        (fun m => m.value)) = [(-6 : ℚ)] ∧
      recomputeValue idGeo MType.height
        [idGeo.fromRadians 0 0 10, ⟨0, 0, 4⟩] = 6 ∧
      ¬ ((-6 : ℚ) = (6 : ℚ)) := by
  refine ⟨?_, ?_, by norm_num⟩
  · simp [handleHeightClick, idGeo, initM, addMarkerM, addLabelM]
    norm_num
  · simp [recomputeValue, idGeo]
    norm_num [abs_of_nonpos]

/-- C8 (amended): for the distance, multi-distance and area types,
recommitting an edit (whose value is `recomputeValue`, the exact
computation of `finalizeMeasurementUpdate`) agrees with constructing the
measurement from scratch through the live click state machine on the
same world positions; the height type is excluded (see the
counterexample). -/
theorem C8_amended (G : Geo) (s : MState) (hp : s.points = []) :
    (s.mode = Mode.distance → ∀ p q : Cart3,
      ((runM G (clicksOf [p, q]) s).registry.getLast?).map (fun m => m.value)
        = some (recomputeValue G MType.distance [p, q])) ∧
      (s.mode = Mode.multiDistance →
        (∀ m, s.registry.getLast? = some m →
          (m.type == MType.multiDistance && m.isActive) = false) →
        ∀ (p q : Cart3) (qs : List Cart3),
        ((runM G (clicksOf (p :: q :: qs)) s).registry.getLast?).map
            (fun m => m.value)
          = some (recomputeValue G MType.multiDistance (p :: q :: qs))) ∧
      (s.mode = Mode.area →
        (∀ m, s.registry.getLast? = some m →
          (m.type == MType.area && m.isActive) = false) →
        ∀ (p0 p1 p2 : Cart3) (qs : List Cart3),
        ((runM G (clicksOf (p0 :: p1 :: p2 :: qs)) s).registry.getLast?).map
            (fun m => m.value)
          = some (recomputeValue G MType.area (p0 :: p1 :: p2 :: qs))) := by
  refine ⟨?_, ?_, ?_⟩
  · intro hm p q
    obtain ⟨hreg, -⟩ := distSequence G s p q hm hp
    rw [hreg, List.getLast?_concat]
    rfl
  · intro hm hnact p q qs
    obtain ⟨-, -, hreg⟩ := multiSequence G s p q qs hm hp hnact
    rw [hreg, List.getLast?_concat]
    rfl
  · intro hm hnact p0 p1 p2 qs
    obtain ⟨-, -, hreg⟩ := areaSequence G s p0 p1 p2 qs hm hp hnact
    rw [hreg, List.getLast?_concat]
    rfl

/-- State in distance mode with an empty session. -/
def distInit : MState := { initM with mode := Mode.distance }

theorem C8_witness :
    ((runM idGeo (clicksOf [⟨0, 0, 0⟩, ⟨1, 2, 2⟩]) distInit).registry.getLast?).map
        (fun m => m.value)
      = some (recomputeValue idGeo MType.distance [⟨0, 0, 0⟩, ⟨1, 2, 2⟩]) :=
  (C8_amended idGeo distInit rfl).1 rfl ⟨0, 0, 0⟩ ⟨1, 2, 2⟩

/-- C9 (counterexample): the live height-measurement click path formats
its label as `"{height.toFixed(2)} m"` without the kilo-unit threshold:
a height of 1500 renders in base units, while `formatValue` would render
it as 1.50 km — the claim fails on the live height path it explicitly
includes. -/
theorem C9_counterexample :
    (handleHeightClick idGeo (some ⟨0, 0, 1510⟩) initM).labels
        = [⟨1500, MUnit.m, 2⟩] ∧
      (1500 : ℚ) ≥ 1000 ∧
      formatValue 1500 false = ⟨3 / 2, MUnit.km, 2⟩ := by
  refine ⟨?_, by norm_num, ?_⟩
  · simp [handleHeightClick, idGeo, initM, addMarkerM, addLabelM]
    norm_num
  · simp [formatValue]
    norm_num

/-- C9 (amended): `formatValue` renders distances strictly below 1000 in
base units and distances of 1000 or more in kilo-units, with the
analogous boundary at 1,000,000 for areas, always with two decimals —
but the label produced on the live height-measurement click path is
always in base units, whatever the magnitude. -/
theorem C9_amended (v : ℚ) :
    (v < 1000 → formatValue v false = ⟨v, MUnit.m, 2⟩) ∧
      (1000 ≤ v → formatValue v false = ⟨v / 1000, MUnit.km, 2⟩) ∧
      (v < 1000000 → formatValue v true = ⟨v, MUnit.m2, 2⟩) ∧
      (1000000 ≤ v → formatValue v true = ⟨v / 1000000, MUnit.km2, 2⟩) ∧
      (∀ (G : Geo) (p : Cart3) (s : MState),
        (handleHeightClick G (some p) s).labels = s.labels ++
          [⟨(G.fromCartesian p).height -
            ((G.getHeight (G.fromCartesian p)).getD 0), MUnit.m, 2⟩]) := by
  refine ⟨?_, ?_, ?_, ?_, ?_⟩
  · intro h
    simp [formatValue, not_le.mpr h]
  · intro h
    simp [formatValue, ge_iff_le, h]
  · intro h
    simp [formatValue, not_le.mpr h]
  · intro h
    simp [formatValue, ge_iff_le, h]
  · intro G p s
    rfl

theorem C9_witness :
    formatValue (99999 / 100) false = ⟨99999 / 100, MUnit.m, 2⟩ ∧
      formatValue 1000 false = ⟨1, MUnit.km, 2⟩ := by
  constructor
  · exact (C9_amended (99999 / 100)).1 (by norm_num)
  · have h := (C9_amended 1000).2.1 (by norm_num)
    rw [h]
    norm_num

/-- A live (non-destroyed) camera-sync module state. -/
def camInit : CamState :=
  ⟨false, false, JSVal.num 0, JSVal.num 0, JSVal.num 0, JSVal.num 0,
    JSVal.num 0, JSVal.num 0, false, false⟩

/-- C10: for each of the twelve relative camera commands, an explicit
magnitude of `0` is falsy under `command.distance || 100` (respectively
`command.angle || 15`), so it is treated exactly like a missing
magnitude and the fixed default — 100 distance units or 15 degrees — is
applied instead of a zero-magnitude no-op. -/
theorem C10_zero_magnitude_defaults :
    handleCameraCommand camInit
        (some (mkRelCommand CmdTag.moveForward (JSVal.num 0) JSVal.undef))
      = [CamEffect.moveForward (JSVal.num 100)] ∧
    handleCameraCommand camInit
        (some (mkRelCommand CmdTag.moveForward JSVal.undef JSVal.undef))
      = [CamEffect.moveForward (JSVal.num 100)] ∧
    handleCameraCommand camInit
        (some (mkRelCommand CmdTag.moveBackward (JSVal.num 0) JSVal.undef))
      = [CamEffect.moveBackward (JSVal.num 100)] ∧
    handleCameraCommand camInit
        (some (mkRelCommand CmdTag.moveBackward JSVal.undef JSVal.undef))
      = [CamEffect.moveBackward (JSVal.num 100)] ∧
    handleCameraCommand camInit
        (some (mkRelCommand CmdTag.moveUp (JSVal.num 0) JSVal.undef))
      = [CamEffect.moveUp (JSVal.num 100)] ∧
    handleCameraCommand camInit
        (some (mkRelCommand CmdTag.moveUp JSVal.undef JSVal.undef))
      = [CamEffect.moveUp (JSVal.num 100)] ∧
    handleCameraCommand camInit
        (some (mkRelCommand CmdTag.moveDown (JSVal.num 0) JSVal.undef))
      = [CamEffect.moveDown (JSVal.num 100)] ∧
    handleCameraCommand camInit
        (some (mkRelCommand CmdTag.moveDown JSVal.undef JSVal.undef))
      = [CamEffect.moveDown (JSVal.num 100)] ∧
    handleCameraCommand camInit
        (some (mkRelCommand CmdTag.moveLeft (JSVal.num 0) JSVal.undef))
      = [CamEffect.moveLeft (JSVal.num 100)] ∧
    handleCameraCommand camInit
        (some (mkRelCommand CmdTag.moveLeft JSVal.undef JSVal.undef))
      = [CamEffect.moveLeft (JSVal.num 100)] ∧
    handleCameraCommand camInit
        (some (mkRelCommand CmdTag.moveRight (JSVal.num 0) JSVal.undef))
      = [CamEffect.moveRight (JSVal.num 100)] ∧
    handleCameraCommand camInit
        (some (mkRelCommand CmdTag.moveRight JSVal.undef JSVal.undef))
      = [CamEffect.moveRight (JSVal.num 100)] ∧
    handleCameraCommand camInit
        (some (mkRelCommand CmdTag.rotateLeft JSVal.undef (JSVal.num 0)))
      = [CamEffect.rotateLeftDeg (JSVal.num 15)] ∧
    handleCameraCommand camInit
        (some (mkRelCommand CmdTag.rotateLeft JSVal.undef JSVal.undef))
      = [CamEffect.rotateLeftDeg (JSVal.num 15)] ∧
    handleCameraCommand camInit
        (some (mkRelCommand CmdTag.rotateRight JSVal.undef (JSVal.num 0)))
      = [CamEffect.rotateRightDeg (JSVal.num 15)] ∧
    handleCameraCommand camInit
        (some (mkRelCommand CmdTag.rotateRight JSVal.undef JSVal.undef))
      = [CamEffect.rotateRightDeg (JSVal.num 15)] ∧
    handleCameraCommand camInit
        (some (mkRelCommand CmdTag.rotateUp JSVal.undef (JSVal.num 0)))
      = [CamEffect.rotateUpDeg (JSVal.num 15)] ∧
    handleCameraCommand camInit
        (some (mkRelCommand CmdTag.rotateUp JSVal.undef JSVal.undef))
      = [CamEffect.rotateUpDeg (JSVal.num 15)] ∧
    handleCameraCommand camInit
        (some (mkRelCommand CmdTag.rotateDown JSVal.undef (JSVal.num 0)))
      = [CamEffect.rotateDownDeg (JSVal.num 15)] ∧
    handleCameraCommand camInit
        (some (mkRelCommand CmdTag.rotateDown JSVal.undef JSVal.undef))
      = [CamEffect.rotateDownDeg (JSVal.num 15)] ∧
    handleCameraCommand camInit
        (some (mkRelCommand CmdTag.zoomIn (JSVal.num 0) JSVal.undef))
      = [CamEffect.zoomIn (JSVal.num 100)] ∧
    handleCameraCommand camInit
        (some (mkRelCommand CmdTag.zoomIn JSVal.undef JSVal.undef))
      = [CamEffect.zoomIn (JSVal.num 100)] ∧
    handleCameraCommand camInit
        (some (mkRelCommand CmdTag.zoomOut (JSVal.num 0) JSVal.undef))
      = [CamEffect.zoomOut (JSVal.num 100)] ∧
    handleCameraCommand camInit
        (some (mkRelCommand CmdTag.zoomOut JSVal.undef JSVal.undef))
      = [CamEffect.zoomOut (JSVal.num 100)] := by
  decide

/-- State in multi-distance mode with an empty session. -/
def multiInit : MState := { initM with mode := Mode.multiDistance }

theorem C1_witness :
    (runM idGeo (clicksOf [⟨0, 0, 0⟩, ⟨3, 4, 0⟩]) multiInit).registry =
      multiInit.registry ++
        [mkActiveMulti idGeo multiInit.registry [⟨0, 0, 0⟩, ⟨3, 4, 0⟩]] :=
  (C1_multiDistance_session idGeo multiInit ⟨0, 0, 0⟩ ⟨3, 4, 0⟩ []
    ⟨1, 0, 0⟩ ⟨2, 0, 0⟩ [] rfl rfl
    (by intro m hm; simp [multiInit, initM] at hm)).1

theorem C2_witness :
    (runM idGeo (clicksOf [⟨0, 0, 0⟩, ⟨1, 2, 2⟩]) distInit).registry =
      distInit.registry ++
        [⟨MType.distance, idGeo.sqrtFn (distSq ⟨0, 0, 0⟩ ⟨1, 2, 2⟩),
          [cartesianToLatLonAlt idGeo ⟨0, 0, 0⟩,
            cartesianToLatLonAlt idGeo ⟨1, 2, 2⟩], false,
          "Distance " ++
            toString (countType distInit.registry MType.distance + 1)⟩] :=
  (C2_distance_two_clicks idGeo distInit ⟨0, 0, 0⟩ ⟨1, 2, 2⟩ rfl rfl).1
